import Mathlib

/-!
Argument shuffling for foreign calls on RISC-V.

A shallow embedding of `src/hotspot/cpu/riscv/foreignGlobals_riscv.cpp`.

The file under study emits machine instructions through a `MacroAssembler`.
Here the assembler is an explicit value (the instructions emitted so far, in
order), every generator takes it and returns it, and the three ways the C++
code stops the VM (`ShouldNotReachHere()`, `fatal(...)`, a failed `assert`)
are explicit results that keep the assembler as it was at that point.

Declarations that the C++ file only includes (`VMReg`, `VMRegPair`,
`Register`, `BasicType`, the register-file constants, the named registers) are
not part of the sources at hand. Their numeric constants are gathered in
`Platform` and every definition and theorem is parametric in it.

`assert(...)` is compiled only into debug builds: `Platform.ASSERT` tells
which build is meant, and the theorems hold for both. `assert_cond(_masm !=
NULL)` always passes here, the assembler being a value. Debug checks inside
the helpers that are not among the sources (`as_Register()` on a location that
is no integer register, for one) are not modelled: the helpers are total, as
in a product build.

Numbers are mathematical integers. Where the source returns an `int`
(`reg2offset_in`, `reg2offset_out`), the result is brought into the 32-bit
range by `to_int`.
-/

namespace ForeignGlobalsRiscv

/-! ## Types declared outside the file -/

/-- Modelled from the spec: the value-type tag of a move (`BasicType` of
`utilities/globalDefinitions.hpp`, not among the sources). The eight primitive
tags are the closed set the shuffle supports; the others are the tags "outside
this closed set", among them the reference-typed ones. -/
inductive BasicType
  | T_BOOLEAN | T_CHAR | T_FLOAT | T_DOUBLE | T_BYTE | T_SHORT | T_INT | T_LONG
  | T_OBJECT | T_ARRAY | T_VOID | T_ADDRESS | T_NARROWOOP | T_METADATA
  | T_NARROWKLASS | T_CONFLICT | T_ILLEGAL
  deriving DecidableEq, Repr

/-- Modelled from the spec: an integer register, identified by its encoding
(`Register` of `register_riscv.hpp`, not among the sources). -/
structure Register where
  encoding : Int
  deriving DecidableEq, Repr

/-- Modelled from the spec: a float register, identified by its encoding
(`FloatRegister` of `register_riscv.hpp`, not among the sources). -/
structure FloatRegister where
  encoding : Int
  deriving DecidableEq, Repr

/-- Modelled from the spec: the global `::as_Register(int encoding)` of
`register_riscv.hpp`, not among the sources. -/
def as_Register (encoding : Int) : Register := ⟨encoding⟩

/-- Modelled from the spec: the global `::as_FloatRegister(int encoding)` of
`register_riscv.hpp`, not among the sources. -/
def as_FloatRegister (encoding : Int) : FloatRegister := ⟨encoding⟩

/-- Modelled from the spec: the constants of the platform that the file uses
but does not define.

* `ASSERT`: whether `assert(...)` is compiled in (debug build) or not (product
  build);
* `number_of_registers`, `float_number_of_registers`: sizes of the two
  register banks; a register takes two 4-byte slots ("logical slots are 4
  bytes but the machine packs them into 8-byte words");
* `stack_0`: the first `VMReg` value that denotes a stack slot; it lies above
  every register;
* `out_preserve_stack_slots`: `SharedRuntime::out_preserve_stack_slots()`;
* `t0`, `zr`, `fp`, `sp`: the named registers the generators use. -/
structure Platform where
  ASSERT : Bool
  number_of_registers : Nat
  float_number_of_registers : Nat
  stack_0 : Int
  out_preserve_stack_slots : Nat
  t0 : Register
  zr : Register
  fp : Register
  sp : Register
  stack_0_above : ((number_of_registers : Int) + float_number_of_registers) * 2 ≤ stack_0

/-- Modelled from the spec: `RegisterImpl::max_slots_per_register` and
`FloatRegisterImpl::max_slots_per_register` of `register_riscv.hpp`, not among
the sources: an 8-byte register is two 4-byte slots. -/
def max_slots_per_register : Int := 2

/-- Modelled from the spec: `VMRegImpl::stack_slot_size` of `code/vmreg.hpp`,
not among the sources: "logical slots are 4 bytes". -/
def stack_slot_size : Int := 4

/-- Modelled from the spec: `ConcreteRegisterImpl::max_gpr` of
`register_riscv.hpp`, not among the sources: the slots of the integer bank. -/
def Platform.max_gpr (P : Platform) : Int :=
  (P.number_of_registers : Int) * max_slots_per_register

/-- Modelled from the spec: `ConcreteRegisterImpl::max_fpr` of
`register_riscv.hpp`, not among the sources: the slots of the integer and the
float bank. -/
def Platform.max_fpr (P : Platform) : Int :=
  P.max_gpr + (P.float_number_of_registers : Int) * max_slots_per_register

/-- Modelled from the spec: the constants of the RISC-V port, whose headers
are not among the sources: 32 integer registers, 32 float registers, 32 vector
registers of four slots above them, `zr = x0`, `sp = x2`, `t0 = x5`,
`fp = x8`, no preserved outgoing slots. The theorems hold for every platform;
this one serves the concrete examples. -/
def riscv64 (debug : Bool) : Platform where
  ASSERT := debug
  number_of_registers := 32
  float_number_of_registers := 32
  stack_0 := 256
  out_preserve_stack_slots := 0
  t0 := ⟨5⟩
  zr := ⟨0⟩
  fp := ⟨8⟩
  sp := ⟨2⟩
  stack_0_above := by decide

/-- Modelled from the spec: a location handle (`VMReg` of `code/vmreg.hpp`,
not among the sources): an integer whose range tells the kind of location.
Values below `max_gpr` are integer-register slots, values from `max_gpr` up to
`max_fpr` float-register slots, values from `stack_0` on stack slots, and `-1`
is the invalid location. -/
structure VMReg where
  value : Int
  deriving DecidableEq, Repr

namespace VMReg

/-- Modelled from the spec: `VMRegImpl::Bad()` of `code/vmreg.hpp`, not
among the sources: the invalid location. -/
def Bad : VMReg := ⟨-1⟩

/-- Modelled from the spec: `VMRegImpl::is_valid()` of `code/vmreg.hpp`, not
among the sources. -/
def is_valid (r : VMReg) : Bool := r.value != -1

/-- Modelled from the spec: `VMRegImpl::is_stack()` of `code/vmreg.hpp`, not
among the sources. -/
def is_stack (P : Platform) (r : VMReg) : Bool := decide (P.stack_0 ≤ r.value)

/-- Modelled from the spec: `VMRegImpl::is_reg()` of `code/vmreg.hpp`, not
among the sources: a valid location that is no stack slot. -/
def is_reg (P : Platform) (r : VMReg) : Bool := r.is_valid && !r.is_stack P

/-- Modelled from the spec: `VMRegImpl::is_Register()` of `code/vmreg.hpp`, not
among the sources. -/
def is_Register (P : Platform) (r : VMReg) : Bool :=
  decide (0 ≤ r.value ∧ r.value < P.max_gpr)

/-- Modelled from the spec: `VMRegImpl::is_FloatRegister()` of `code/vmreg.hpp`, not
among the sources. -/
def is_FloatRegister (P : Platform) (r : VMReg) : Bool :=
  decide (P.max_gpr ≤ r.value ∧ r.value < P.max_fpr)

/-- Modelled from the spec: `VMRegImpl::as_Register()` of
`vmreg_riscv.inline.hpp`, not among the sources (C++ division truncates). -/
def as_Register (r : VMReg) : Register :=
  ForeignGlobalsRiscv.as_Register (Int.tdiv r.value max_slots_per_register)

/-- Modelled from the spec: `VMRegImpl::as_FloatRegister()` of `code/vmreg.hpp`, not
among the sources. -/
def as_FloatRegister (P : Platform) (r : VMReg) : FloatRegister :=
  ForeignGlobalsRiscv.as_FloatRegister (Int.tdiv (r.value - P.max_gpr) max_slots_per_register)

/-- Modelled from the spec: `VMRegImpl::reg2stack()` of `code/vmreg.hpp`, not
among the sources: the slot number of a stack slot. -/
def reg2stack (P : Platform) (r : VMReg) : Int := r.value - P.stack_0

/-- Modelled from the spec: `VMRegImpl::stack2reg(idx)` of `code/vmreg.hpp`, not
among the sources: the stack slot of number `idx`. -/
def stack2reg (P : Platform) (idx : Int) : VMReg := ⟨P.stack_0 + idx⟩

end VMReg

/-- Modelled from the spec: `RegisterImpl::as_VMReg()` of
`vmreg_riscv.inline.hpp`, not among the sources: the first slot of the
register; `noreg` (encoding `-1`) gives `Bad`. -/
def Register.as_VMReg (r : Register) : VMReg :=
  if r.encoding = -1 then VMReg.Bad else ⟨r.encoding * max_slots_per_register⟩

/-- Modelled from the spec: `FloatRegisterImpl::as_VMReg()` of
`vmreg_riscv.inline.hpp`, not among the sources: the first slot of the
register. -/
def FloatRegister.as_VMReg (P : Platform) (r : FloatRegister) : VMReg :=
  ⟨r.encoding * max_slots_per_register + P.max_gpr⟩

/-- A register number that names one of the integer registers. -/
def Register.is_valid (P : Platform) (r : Register) : Prop :=
  0 ≤ r.encoding ∧ r.encoding < P.number_of_registers

/-- A register number that names one of the float registers. -/
def FloatRegister.is_valid (P : Platform) (r : FloatRegister) : Prop :=
  0 ≤ r.encoding ∧ r.encoding < P.float_number_of_registers

instance (P : Platform) (r : Register) : Decidable (r.is_valid P) := by
  unfold Register.is_valid; infer_instance

instance (P : Platform) (r : FloatRegister) : Decidable (r.is_valid P) := by
  unfold FloatRegister.is_valid; infer_instance

/-- Modelled from the spec: a LocationPair (`VMRegPair` of `code/vmreg.hpp`,
not among the sources): "an ordered pair (primary, secondary) of
Locations". -/
structure VMRegPair where
  first : VMReg
  second : VMReg
  deriving DecidableEq, Repr

namespace VMRegPair

/-- Modelled from the spec: `VMRegPair::set1` of `code/vmreg.hpp`, not among
the sources: a value of one slot; the secondary is `Bad`. -/
def set1 (v : VMReg) : VMRegPair := ⟨v, VMReg.Bad⟩

/-- Modelled from the spec: `VMRegPair::set2` of `code/vmreg.hpp`, not among
the sources: a value of two slots; the secondary is the next slot. -/
def set2 (v : VMReg) : VMRegPair := ⟨v, ⟨v.value + 1⟩⟩

/-- Modelled from the spec: `VMRegPair::is_single_phys_reg()` of
`code/vmreg.hpp`, not among the sources: the primary is a register and the
secondary is the slot right after it. -/
def is_single_phys_reg (P : Platform) (p : VMRegPair) : Bool :=
  p.first.is_reg P && decide (p.first.value + 1 = p.second.value)

end VMRegPair

/-- Modelled from the spec: a Move, "an ordered triple (value-type tag, source
LocationPair, destination LocationPair)" (`Move` of `prims/foreignGlobals.hpp`,
not among the sources; its fields are `bt`, `from`, `to`). -/
structure Move where
  bt : BasicType
  from_vmreg : VMRegPair
  to_vmreg : VMRegPair
  deriving DecidableEq, Repr

/-- The `ArgumentShuffle` object: it owns the ordered sequence of moves. -/
structure ArgumentShuffle where
  _moves : List Move
  deriving DecidableEq, Repr

/-! ## The instruction sink -/

/-- Modelled from the spec: `Address(base, offset)` of the assembler, not
among the sources. -/
structure Address where
  base : Register
  offset : Int
  deriving DecidableEq, Repr

/-- The assembler calls the file makes, one constructor per `MacroAssembler`
method, with the arguments in the order of the call. -/
inductive Instruction
  | ld (Rd : Register) (adr : Address)
  | lw (Rd : Register) (adr : Address)
  | lwu (Rd : Register) (adr : Address)
  | sd (Rs : Register) (adr : Address)
  | sw (Rs : Register) (adr : Address)
  | mv (Rd Rs : Register)
  | addw (Rd Rs1 Rs2 : Register)
  | fld (Rd : FloatRegister) (adr : Address)
  | fsd (Rs : FloatRegister) (adr : Address)
  | fsw (Rs : FloatRegister) (adr : Address)
  | fmv_s (Rd Rs : FloatRegister)
  | fmv_d (Rd Rs : FloatRegister)
  | fmv_x_w (Rd : Register) (Rs : FloatRegister)
  | fmv_x_d (Rd : Register) (Rs : FloatRegister)
  deriving DecidableEq, Repr

/-- The `MacroAssembler` as the file sees it: an append-only sink. `code` is
the instructions emitted so far, oldest first; `comments` is the block
comments, each with the number of instructions emitted before it. -/
structure MacroAssembler where
  code : List Instruction
  comments : List (Nat × BasicType)
  deriving DecidableEq, Repr

namespace MacroAssembler

/-- An assembler that has emitted nothing. -/
def empty : MacroAssembler := ⟨[], []⟩

/-- Appends one instruction. -/
def emit (masm : MacroAssembler) (i : Instruction) : MacroAssembler :=
  { masm with code := masm.code ++ [i] }

/-- Modelled from the spec: `MacroAssembler::block_comment`, not among the
sources, as called with the name of the value type: records a comment,
no instruction. -/
def block_comment (masm : MacroAssembler) (bt : BasicType) : MacroAssembler :=
  { masm with comments := masm.comments ++ [(masm.code.length, bt)] }

end MacroAssembler

/-- The ways the code stops the VM. -/
inductive Fault
  | ShouldNotReachHere
  | fatal (bt : BasicType)
  | assert_failed
  deriving DecidableEq, Repr

/-- What a generator leaves behind: the assembler after a normal return, or
the fault that stopped the VM together with the assembler at that point. -/
inductive Outcome
  | ok (masm : MacroAssembler)
  | aborted (fault : Fault) (masm : MacroAssembler)
  deriving DecidableEq, Repr

namespace Outcome

/-- The assembler, however the generator ended. -/
def masm : Outcome → MacroAssembler
  | ok m => m
  | aborted _ m => m

/-- Whether the generator returned normally. -/
def is_ok : Outcome → Bool
  | ok _ => true
  | aborted _ _ => false

end Outcome

open BasicType Instruction

/-! ## Stack offsets (lines 132-140) -/

/-- The value of a C++ expression once it is held in an `int`: the number in
the range from `-2^31` up to `2^31 - 1` that differs from `x` by a multiple
of `2^32`. -/
def to_int (x : Int) : Int := (x + 2 ^ 31) % 2 ^ 32 - 2 ^ 31

/-- The source function `reg2offset_in` (lines 132-136); it returns an
`int`. -/
def reg2offset_in (P : Platform) (r : VMReg) : Int :=
  to_int (r.reg2stack P * stack_slot_size)

/-- The source function `reg2offset_out` (lines 138-140); it returns an
`int`. -/
def reg2offset_out (P : Platform) (r : VMReg) : Int :=
  to_int ((r.reg2stack P + P.out_preserve_stack_slots) * stack_slot_size)

/-! ## The move generators (lines 144-282) -/

/-- The source function `long_move` (lines 145-164). -/
def long_move (P : Platform) (masm : MacroAssembler) (src dst : VMRegPair) : Outcome :=
  if src.first.is_stack P then
    if dst.first.is_stack P then
      -- stack to stack
      let masm := masm.emit (ld P.t0 ⟨P.fp, reg2offset_in P src.first⟩)
      let masm := masm.emit (sd P.t0 ⟨P.sp, reg2offset_out P dst.first⟩)
      .ok masm
    else
      -- stack to reg
      .ok (masm.emit (ld dst.first.as_Register ⟨P.fp, reg2offset_in P src.first⟩))
  else if dst.first.is_stack P then
    -- reg to stack
    .ok (masm.emit (sd src.first.as_Register ⟨P.sp, reg2offset_out P dst.first⟩))
  else
    if dst.first ≠ src.first then
      .ok (masm.emit (mv dst.first.as_Register src.first.as_Register))
    else
      .ok masm

/-- The source function `move32_64` (lines 170-190). -/
def move32_64 (P : Platform) (masm : MacroAssembler) (src dst : VMRegPair) : Outcome :=
  if src.first.is_stack P then
    if dst.first.is_stack P then
      -- stack to stack
      let masm := masm.emit (ld P.t0 ⟨P.fp, reg2offset_in P src.first⟩)
      let masm := masm.emit (sd P.t0 ⟨P.sp, reg2offset_out P dst.first⟩)
      .ok masm
    else
      -- stack to reg
      .ok (masm.emit (lw dst.first.as_Register ⟨P.fp, reg2offset_in P src.first⟩))
  else if dst.first.is_stack P then
    -- reg to stack
    .ok (masm.emit (sd src.first.as_Register ⟨P.sp, reg2offset_out P dst.first⟩))
  else
    if dst.first ≠ src.first then
      -- 32bits extend sign
      .ok (masm.emit (addw dst.first.as_Register src.first.as_Register P.zr))
    else
      .ok masm

/-- The condition asserted on entry by `double_move` and `float_move`. -/
def shape_assert (P : Platform) (src dst : VMRegPair) : Bool :=
  (src.first.is_stack P && dst.first.is_stack P) ||
  (src.first.is_reg P && dst.first.is_reg P) ||
  (src.first.is_stack P && dst.first.is_reg P)

/-- The source function `double_move` (lines 193-214). -/
def double_move (P : Platform) (masm : MacroAssembler) (src dst : VMRegPair) : Outcome :=
  if P.ASSERT && !shape_assert P src dst then .aborted .assert_failed masm
  else if src.first.is_stack P then
    if dst.first.is_stack P then
      let masm := masm.emit (ld P.t0 ⟨P.fp, reg2offset_in P src.first⟩)
      let masm := masm.emit (sd P.t0 ⟨P.sp, reg2offset_out P dst.first⟩)
      .ok masm
    else if dst.first.is_Register P then
      .ok (masm.emit (ld dst.first.as_Register ⟨P.fp, reg2offset_in P src.first⟩))
    else
      .aborted .ShouldNotReachHere masm
  else if src.first ≠ dst.first then
    if src.is_single_phys_reg P && dst.is_single_phys_reg P then
      .ok (masm.emit (fmv_d (dst.first.as_FloatRegister P) (src.first.as_FloatRegister P)))
    else
      .aborted .ShouldNotReachHere masm
  else
    .ok masm

/-- The source function `float_move` (lines 217-238). -/
def float_move (P : Platform) (masm : MacroAssembler) (src dst : VMRegPair) : Outcome :=
  if P.ASSERT && !shape_assert P src dst then .aborted .assert_failed masm
  else if src.first.is_stack P then
    if dst.first.is_stack P then
      let masm := masm.emit (lwu P.t0 ⟨P.fp, reg2offset_in P src.first⟩)
      let masm := masm.emit (sw P.t0 ⟨P.sp, reg2offset_out P dst.first⟩)
      .ok masm
    else if dst.first.is_Register P then
      .ok (masm.emit (lwu dst.first.as_Register ⟨P.fp, reg2offset_in P src.first⟩))
    else
      .aborted .ShouldNotReachHere masm
  else if src.first ≠ dst.first then
    if src.is_single_phys_reg P && dst.is_single_phys_reg P then
      .ok (masm.emit (fmv_s (dst.first.as_FloatRegister P) (src.first.as_FloatRegister P)))
    else
      .aborted .ShouldNotReachHere masm
  else
    .ok masm

/-- The source function `move_float_to_integer_or_stack` (lines 240-262). -/
def move_float_to_integer_or_stack (P : Platform) (masm : MacroAssembler)
    (src dst : VMRegPair) : Outcome :=
  if src.first.is_stack P then
    if dst.first.is_stack P then
      let masm := masm.emit (lwu P.t0 ⟨P.fp, reg2offset_in P src.first⟩)
      let masm := masm.emit (sw P.t0 ⟨P.sp, reg2offset_out P dst.first⟩)
      .ok masm
    else if dst.first.is_Register P then
      .ok (masm.emit (lwu dst.first.as_Register ⟨P.fp, reg2offset_in P src.first⟩))
    else
      .aborted .ShouldNotReachHere masm
  else if src.first ≠ dst.first then
    -- java abi will not use integer reg to pass a float.
    if src.first.is_FloatRegister P then
      if dst.first.is_Register P then
        .ok (masm.emit (fmv_x_w dst.first.as_Register (src.first.as_FloatRegister P)))
      else
        .ok (masm.emit (fsw (src.first.as_FloatRegister P) ⟨P.sp, reg2offset_out P dst.first⟩))
    else
      .aborted .ShouldNotReachHere masm
  else
    .ok masm

/-- The source function `move_double_to_integer_or_stack` (lines 264-282). -/
def move_double_to_integer_or_stack (P : Platform) (masm : MacroAssembler)
    (src dst : VMRegPair) : Outcome :=
  if src.first.is_stack P then
    if dst.first.is_stack P then
      let masm := masm.emit (ld P.t0 ⟨P.fp, reg2offset_in P src.first⟩)
      let masm := masm.emit (sd P.t0 ⟨P.sp, reg2offset_out P dst.first⟩)
      .ok masm
    else if dst.first.is_Register P then
      .ok (masm.emit (ld dst.first.as_Register ⟨P.fp, reg2offset_in P src.first⟩))
    else
      .aborted .ShouldNotReachHere masm
  else if src.first ≠ dst.first then
    if src.is_single_phys_reg P && dst.is_single_phys_reg P then
      .ok (masm.emit (fmv_x_d dst.first.as_Register (src.first.as_FloatRegister P)))
    else
      .aborted .ShouldNotReachHere masm
  else
    .ok masm

/-! ## The shuffle engine (lines 286-326) -/

/-- The body of the loop of `pd_generate`, for one move. -/
def pd_generate_move (P : Platform) (masm : MacroAssembler) (move : Move) : Outcome :=
  let arg_bt := move.bt
  let from_vmreg := move.from_vmreg
  let to_vmreg := move.to_vmreg
  let masm := masm.block_comment arg_bt
  match arg_bt with
  | T_BOOLEAN | T_BYTE | T_SHORT | T_CHAR | T_INT =>
    move32_64 P masm from_vmreg to_vmreg
  | T_FLOAT =>
    if !to_vmreg.first.is_FloatRegister P then
      move_float_to_integer_or_stack P masm from_vmreg to_vmreg
    else
      float_move P masm from_vmreg to_vmreg
  | T_DOUBLE =>
    if !to_vmreg.first.is_FloatRegister P then
      move_double_to_integer_or_stack P masm from_vmreg to_vmreg
    else
      double_move P masm from_vmreg to_vmreg
  | T_LONG =>
    long_move P masm from_vmreg to_vmreg
  | _ =>
    .aborted (.fatal arg_bt) masm

/-- The loop of `pd_generate` over the moves still to do: it stops at the
first move that stops the VM. -/
def pd_generate_loop (P : Platform) : List Move → MacroAssembler → Outcome
  | [], masm => .ok masm
  | move :: rest, masm =>
    match pd_generate_move P masm move with
    | .ok masm => pd_generate_loop P rest masm
    | .aborted fault masm => .aborted fault masm

/-- The source function `ArgumentShuffle::pd_generate` (lines 286-326). `tmp`
is converted to a register that the
body never uses, and neither bias is read. -/
def ArgumentShuffle.pd_generate (P : Platform) (self : ArgumentShuffle)
    (masm : MacroAssembler) (tmp : VMReg) (in_stk_bias out_stk_bias : Int) : Outcome :=
  let _tmp_reg := tmp.as_Register
  let _ := in_stk_bias
  let _ := out_stk_bias
  pd_generate_loop P self._moves masm

/-! ## The storage classifier (lines 65-96) -/

/-- Modelled from the spec: a value of the enumeration `RegType` (of
`foreignGlobals_riscv.hpp`, not among the sources), identified by its integer
code. A cast from `int` keeps the code. -/
structure RegType where
  code : Int
  deriving DecidableEq, Repr

/-- Modelled from the spec: the integer codes of the enumerators of `RegType`
and `StorageClass` (of `foreignGlobals_riscv.hpp`, not among the sources).
"Codes at or below a small native kind boundary map directly to {INTEGER,
FLOAT, STACK}. Codes above that boundary are logical storage-class codes
(integer widths 8/16/32/64, float widths 32/64)". `STACK` is the boundary,
and the labels that meet in one `switch` are distinct. -/
structure StorageCodes where
  INTEGER : Int
  FLOAT : Int
  STACK : Int
  INTEGER_8 : Int
  INTEGER_16 : Int
  INTEGER_32 : Int
  INTEGER_64 : Int
  FLOAT_32 : Int
  FLOAT_64 : Int
  kinds_below : INTEGER ≤ STACK ∧ FLOAT ≤ STACK
  kinds_distinct : INTEGER ≠ FLOAT ∧ INTEGER ≠ STACK ∧ FLOAT ≠ STACK
  classes_above : STACK < INTEGER_8 ∧ STACK < INTEGER_16 ∧ STACK < INTEGER_32 ∧
    STACK < INTEGER_64 ∧ STACK < FLOAT_32 ∧ STACK < FLOAT_64
  classes_distinct : ∀ c, (c = INTEGER_8 ∨ c = INTEGER_16 ∨ c = INTEGER_32 ∨ c = INTEGER_64) →
    c ≠ FLOAT_32 ∧ c ≠ FLOAT_64

/-- Modelled from the spec: one assignment of codes that fits the description
above, for the concrete examples. The theorems hold for every assignment. -/
def sample_codes : StorageCodes where
  INTEGER := 0
  FLOAT := 1
  STACK := 2
  INTEGER_8 := 3
  INTEGER_16 := 4
  INTEGER_32 := 5
  INTEGER_64 := 6
  FLOAT_32 := 7
  FLOAT_64 := 8
  kinds_below := by decide
  kinds_distinct := by decide
  classes_above := by decide
  classes_distinct := by
    intro c h
    rcases h with h | h | h | h <;> subst h <;> decide

/-- The source function `get_regtype` (lines 65-83). A code at or below
`RegType::STACK` is cast to `RegType` as it is; above it, the `switch` maps the
storage classes and its `default` stops the VM. -/
def get_regtype (C : StorageCodes) (regtype_or_storageclass : Int) : Except Fault RegType :=
  if regtype_or_storageclass ≤ C.STACK then
    .ok ⟨regtype_or_storageclass⟩
  else if regtype_or_storageclass = C.INTEGER_8 ∨ regtype_or_storageclass = C.INTEGER_16 ∨
      regtype_or_storageclass = C.INTEGER_32 ∨ regtype_or_storageclass = C.INTEGER_64 then
    .ok ⟨C.INTEGER⟩
  else if regtype_or_storageclass = C.FLOAT_32 ∨ regtype_or_storageclass = C.FLOAT_64 then
    .ok ⟨C.FLOAT⟩
  else
    .error .ShouldNotReachHere

/-- The source function `ForeignGlobals::vmstorage_to_vmreg` (lines 85-96), on
a 64-bit platform (`LP64_ONLY(*2)` doubles the index). `index` is an `int`
and so is the product `index * 2`, which is brought into the 32-bit range as
the machine does. -/
def vmstorage_to_vmreg (P : Platform) (C : StorageCodes) (type index : Int) :
    Except Fault VMReg :=
  match get_regtype C type with
  | .error fault => .error fault
  | .ok regtype =>
    if regtype.code = C.INTEGER then
      .ok (as_Register index).as_VMReg
    else if regtype.code = C.FLOAT then
      .ok ((as_FloatRegister index).as_VMReg P)
    else if regtype.code = C.STACK then
      .ok (VMReg.stack2reg P (to_int (index * 2)))
    else
      .ok VMReg.Bad

/-! ## The register spiller (lines 98-126) -/

/-- The source function `RegSpiller::pd_reg_size` (lines 98-105). -/
def RegSpiller.pd_reg_size (P : Platform) (reg : VMReg) : Int :=
  if reg.is_Register P then
    8
  else if reg.is_FloatRegister P then
    8
  else
    0 -- stack and BAD

/-- The source function `RegSpiller::pd_store_reg` (lines 108-116). -/
def RegSpiller.pd_store_reg (P : Platform) (masm : MacroAssembler) (offset : Int)
    (reg : VMReg) : MacroAssembler :=
  if reg.is_Register P then
    masm.emit (sd reg.as_Register ⟨P.sp, offset⟩)
  else if reg.is_FloatRegister P then
    masm.emit (fsd (reg.as_FloatRegister P) ⟨P.sp, offset⟩)
  else
    -- stack and BAD
    masm

/-- The source function `RegSpiller::pd_load_reg` (lines 118-126). -/
def RegSpiller.pd_load_reg (P : Platform) (masm : MacroAssembler) (offset : Int)
    (reg : VMReg) : MacroAssembler :=
  if reg.is_Register P then
    masm.emit (ld reg.as_Register ⟨P.sp, offset⟩)
  else if reg.is_FloatRegister P then
    masm.emit (fld (reg.as_FloatRegister P) ⟨P.sp, offset⟩)
  else
    -- stack and BAD
    masm

/-! ## The volatility query (lines 328-336) -/

/-- Modelled from the spec: the `ABIDescriptor` (of
`foreignGlobals_riscv.hpp`, not among the sources): "integer argument
registers, float argument registers, integer return registers, float return
registers, additional integer volatile registers, additional float volatile
registers, stack alignment (bytes), shadow space (bytes), target-address
register, return-buffer-address register". The register lists keep the order
of the descriptor. -/
structure ABIDescriptor where
  _integer_argument_registers : List Register
  _integer_return_registers : List Register
  _float_argument_registers : List FloatRegister
  _float_return_registers : List FloatRegister
  _integer_additional_volatile_registers : List Register
  _float_additional_volatile_registers : List FloatRegister
  _stack_alignment_bytes : Int
  _shadow_space_bytes : Int
  _target_addr_reg : Register
  _ret_buf_addr_reg : Register
  deriving DecidableEq, Repr

/-- The source function `ABIDescriptor::is_volatile_reg(Register)` (lines
328-331). -/
def ABIDescriptor.is_volatile_reg (self : ABIDescriptor) (reg : Register) : Bool :=
  self._integer_argument_registers.contains reg
    || self._integer_additional_volatile_registers.contains reg

/-- The source function `ABIDescriptor::is_volatile_reg(FloatRegister)` (lines
333-336), the overload for float registers. -/
def ABIDescriptor.is_volatile_reg_float (self : ABIDescriptor) (reg : FloatRegister) : Bool :=
  self._float_argument_registers.contains reg
    || self._float_additional_volatile_registers.contains reg

/-! ## Vocabulary of the properties -/

/-- The sub-word integer family: the tags `pd_generate` sends to `move32_64`. -/
def BasicType.is_subword : BasicType → Bool
  | T_BOOLEAN | T_BYTE | T_SHORT | T_CHAR | T_INT => true
  | _ => false

/-- The eight supported value types: boolean, byte, short, char, int, long,
float, double. -/
def BasicType.is_supported : BasicType → Bool
  | T_BOOLEAN | T_BYTE | T_SHORT | T_CHAR | T_INT | T_LONG | T_FLOAT | T_DOUBLE => true
  | _ => false

namespace Instruction

/-- The address a load reads, for the instructions that load from memory. -/
def load_adr : Instruction → Option Address
  | ld _ adr | lw _ adr | lwu _ adr | fld _ adr => some adr
  | _ => none

/-- The address a store writes, for the instructions that store to memory. -/
def store_adr : Instruction → Option Address
  | sd _ adr | sw _ adr | fsd _ adr | fsw _ adr => some adr
  | _ => none

/-- The width in bits of the memory access of an instruction, if it makes
one. -/
def access_width : Instruction → Option Nat
  | ld _ _ | sd _ _ | fld _ _ | fsd _ _ => some 64
  | lw _ _ | lwu _ _ | sw _ _ | fsw _ _ => some 32
  | _ => none

end Instruction

/-- A location that is the integer register `r` or the float register `f`, as
`as_VMReg` yields it. -/
def VMReg.is_physical_register (P : Platform) (v : VMReg) : Prop :=
  (∃ r : Register, r.is_valid P ∧ v = r.as_VMReg) ∨
  (∃ f : FloatRegister, f.is_valid P ∧ v = f.as_VMReg P)

/-- The instructions a generator emitted, given the assembler it started
from: what its outcome holds beyond the instructions already there. -/
def Outcome.emitted (o : Outcome) (start : MacroAssembler) : List Instruction :=
  o.masm.code.drop start.code.length

/-- Stack offsets of a move as the generators compute them: every load among
`new` reads `fp + reg2offset_in(src)`, every store among `new` writes
`sp + reg2offset_out(dst)`, a stack source is loaded and a stack destination
is stored. No bias occurs. -/
def offsets_unbiased (P : Platform) (src dst : VMReg) (new : List Instruction) : Prop :=
  (∀ i ∈ new, ∀ a, i.load_adr = some a → a = ⟨P.fp, reg2offset_in P src⟩) ∧
  (∀ i ∈ new, ∀ a, i.store_adr = some a → a = ⟨P.sp, reg2offset_out P dst⟩) ∧
  (src.is_stack P = true → ∃ i ∈ new, i.load_adr = some ⟨P.fp, reg2offset_in P src⟩) ∧
  (dst.is_stack P = true → ∃ i ∈ new, i.store_adr = some ⟨P.sp, reg2offset_out P dst⟩)


/-- The fault that stopped a generator, if one did. -/
def Outcome.fault : Outcome → Option Fault
  | .ok _ => none
  | .aborted fault _ => some fault

namespace Instruction

end Instruction

/-- What a generator adds to the assembler does not depend on what the
assembler held before: from any two assemblers the fault is the same and so
are the instructions emitted, and these come after those already there. -/
def assembler_independent (generate : MacroAssembler → Outcome) : Prop :=
  ∀ masm, (generate masm).masm.code = masm.code ++ (generate masm).emitted masm ∧
    ∀ other, (generate masm).fault = (generate other).fault ∧
      (generate masm).emitted masm = (generate other).emitted other

/-- Modelled from the spec: the state the emitted instructions act on. The
spec takes the instruction primitives as an external collaborator ("store/load/
move op-codes are assumed correct and atomic"); their effect here is that of
the RV64 instructions of the same names. Registers hold 64-bit values and
memory is an array of bytes. -/
structure Machine where
  x : Register → Nat
  f : FloatRegister → Nat
  mem : Nat → Nat

namespace Machine

/-- Reads an integer register; the zero register reads as 0. -/
def get_x (P : Platform) (s : Machine) (r : Register) : Nat :=
  if r = P.zr then 0 else s.x r % 2 ^ 64

/-- Writes an integer register; a write to the zero register is dropped. -/
def set_x (P : Platform) (s : Machine) (r : Register) (v : Nat) : Machine :=
  if r = P.zr then s else { s with x := Function.update s.x r (v % 2 ^ 64) }

/-- Reads a float register. -/
def get_f (s : Machine) (r : FloatRegister) : Nat := s.f r % 2 ^ 64

/-- Writes a float register. -/
def set_f (s : Machine) (r : FloatRegister) (v : Nat) : Machine :=
  { s with f := Function.update s.f r (v % 2 ^ 64) }

/-- The effective address of `Address(base, offset)`. -/
def ea (P : Platform) (s : Machine) (adr : Address) : Nat :=
  (((s.get_x P adr.base : Int) + adr.offset) % 2 ^ 64).toNat

/-- Reads `n` bytes from address `a` on, little-endian. -/
def load (s : Machine) (a : Nat) : Nat → Nat
  | 0 => 0
  | n + 1 => s.mem (a % 2 ^ 64) % 256 + 256 * load s (a + 1) n

/-- Writes the low `n` bytes of `v` from address `a` on, little-endian. -/
def store (s : Machine) (a : Nat) (v : Nat) : Nat → Machine
  | 0 => s
  | n + 1 =>
    store { s with mem := Function.update s.mem (a % 2 ^ 64) (v % 256) } (a + 1) (v / 256) n

end Machine

/-- The 64-bit sign extension of the low 32 bits of `v`. -/
def sign_extend32 (v : Nat) : Nat :=
  if v % 2 ^ 32 < 2 ^ 31 then v % 2 ^ 32 else v % 2 ^ 32 + (2 ^ 64 - 2 ^ 32)

/-- Whether a float register value is a single-precision value in its 64-bit
register: the upper 32 bits are all ones. -/
def is_nan_boxed (v : Nat) : Bool := v / 2 ^ 32 % 2 ^ 32 == 2 ^ 32 - 1

/-- The single-precision value a float register holds: its low 32 bits when
the value is boxed, the canonical NaN otherwise. -/
def unbox_single (v : Nat) : Nat := if is_nan_boxed v then v % 2 ^ 32 else 0x7fc00000

/-- A single-precision value as a float register holds it. -/
def box_single (w : Nat) : Nat := w % 2 ^ 32 + (2 ^ 64 - 2 ^ 32)

/-- Modelled from the spec: the effect of one emitted instruction, that of the
RV64 instruction of the same name. `lw` and `fmv_x_w` sign-extend their 32
bits, `lwu` zero-extends, `addw` adds in 32 bits and sign-extends, `fmv_s`
moves a single-precision value (boxed in the 64-bit register) and, as the
assembler emits nothing for equal registers, leaves the machine as it is
then. -/
def exec (P : Platform) (s : Machine) : Instruction → Machine
  | ld Rd adr => s.set_x P Rd (s.load (s.ea P adr) 8)
  | lw Rd adr => s.set_x P Rd (sign_extend32 (s.load (s.ea P adr) 4))
  | lwu Rd adr => s.set_x P Rd (s.load (s.ea P adr) 4)
  | sd Rs adr => s.store (s.ea P adr) (s.get_x P Rs) 8
  | sw Rs adr => s.store (s.ea P adr) (s.get_x P Rs) 4
  | mv Rd Rs => s.set_x P Rd (s.get_x P Rs)
  | addw Rd Rs1 Rs2 => s.set_x P Rd (sign_extend32 (s.get_x P Rs1 + s.get_x P Rs2))
  | fld Rd adr => s.set_f Rd (s.load (s.ea P adr) 8)
  | fsd Rs adr => s.store (s.ea P adr) (s.get_f Rs) 8
  | fsw Rs adr => s.store (s.ea P adr) (s.get_f Rs) 4
  | fmv_s Rd Rs => if Rd = Rs then s else s.set_f Rd (box_single (unbox_single (s.get_f Rs)))
  | fmv_d Rd Rs => s.set_f Rd (s.get_f Rs)
  | fmv_x_w Rd Rs => s.set_x P Rd (sign_extend32 (s.get_f Rs))
  | fmv_x_d Rd Rs => s.set_x P Rd (s.get_f Rs)

/-- Runs a sequence of emitted instructions, first to last. -/
def run (P : Platform) (s : Machine) (code : List Instruction) : Machine :=
  code.foldl (exec P) s

/-! ## Values held in locations -/

section locations

variable (P : Platform)

theorem gpr_value (r : Register) (h : r.is_valid P) :
    r.as_VMReg.value = r.encoding * 2 := by
  obtain ⟨h0, _⟩ := h
  have : r.encoding ≠ -1 := by omega
  simp [Register.as_VMReg, this, max_slots_per_register]

theorem gpr_is_stack (r : Register) (h : r.is_valid P) :
    r.as_VMReg.is_stack P = false := by
  have hv := gpr_value P r h
  have hs := P.stack_0_above
  obtain ⟨_, h1⟩ := h
  simp only [VMReg.is_stack, decide_eq_false_iff_not, hv]
  omega

theorem gpr_is_valid (r : Register) (h : r.is_valid P) :
    r.as_VMReg.is_valid = true := by
  have hv := gpr_value P r h
  obtain ⟨h0, _⟩ := h
  simp only [VMReg.is_valid, hv, bne_iff_ne, ne_eq]
  omega

theorem gpr_is_reg (r : Register) (h : r.is_valid P) :
    r.as_VMReg.is_reg P = true := by
  simp [VMReg.is_reg, gpr_is_stack P r h, gpr_is_valid P r h]

theorem gpr_is_Register (r : Register) (h : r.is_valid P) :
    r.as_VMReg.is_Register P = true := by
  have hv := gpr_value P r h
  obtain ⟨h0, h1⟩ := h
  simp only [VMReg.is_Register, hv, Platform.max_gpr, max_slots_per_register,
    decide_eq_true_eq]
  omega

theorem gpr_is_FloatRegister (r : Register) (h : r.is_valid P) :
    r.as_VMReg.is_FloatRegister P = false := by
  have hv := gpr_value P r h
  obtain ⟨h0, h1⟩ := h
  simp only [VMReg.is_FloatRegister, hv, Platform.max_gpr, max_slots_per_register,
    decide_eq_false_iff_not]
  omega

theorem gpr_as_Register (r : Register) (h : r.is_valid P) :
    r.as_VMReg.as_Register = r := by
  have hv := gpr_value P r h
  obtain ⟨e⟩ := r
  simp only [VMReg.as_Register, hv, max_slots_per_register, as_Register]
  congr 1
  exact Int.mul_tdiv_cancel _ (by decide)

theorem gpr_inj (r1 r2 : Register) (h1 : r1.is_valid P) (h2 : r2.is_valid P)
    (h : r1.as_VMReg = r2.as_VMReg) : r1 = r2 := by
  rw [← gpr_as_Register P r1 h1, ← gpr_as_Register P r2 h2, h]

theorem fpr_value (f : FloatRegister) :
    (f.as_VMReg P).value = f.encoding * 2 + P.max_gpr := by
  simp [FloatRegister.as_VMReg, max_slots_per_register]

theorem fpr_is_stack (f : FloatRegister) (h : f.is_valid P) :
    (f.as_VMReg P).is_stack P = false := by
  have hs := P.stack_0_above
  obtain ⟨_, h1⟩ := h
  simp only [VMReg.is_stack, decide_eq_false_iff_not, fpr_value, Platform.max_gpr,
    max_slots_per_register]
  omega

theorem fpr_is_valid (f : FloatRegister) (h : f.is_valid P) :
    (f.as_VMReg P).is_valid = true := by
  obtain ⟨h0, _⟩ := h
  simp only [VMReg.is_valid, fpr_value, Platform.max_gpr, max_slots_per_register,
    bne_iff_ne, ne_eq]
  omega

theorem fpr_is_reg (f : FloatRegister) (h : f.is_valid P) :
    (f.as_VMReg P).is_reg P = true := by
  simp [VMReg.is_reg, fpr_is_stack P f h, fpr_is_valid P f h]

theorem fpr_is_Register (f : FloatRegister) (h : f.is_valid P) :
    (f.as_VMReg P).is_Register P = false := by
  obtain ⟨h0, h1⟩ := h
  simp only [VMReg.is_Register, fpr_value, Platform.max_gpr, max_slots_per_register,
    decide_eq_false_iff_not]
  omega

theorem fpr_is_FloatRegister (f : FloatRegister) (h : f.is_valid P) :
    (f.as_VMReg P).is_FloatRegister P = true := by
  obtain ⟨h0, h1⟩ := h
  simp only [VMReg.is_FloatRegister, fpr_value, Platform.max_gpr, Platform.max_fpr,
    max_slots_per_register, decide_eq_true_eq]
  omega

theorem fpr_as_FloatRegister (f : FloatRegister) :
    (f.as_VMReg P).as_FloatRegister P = f := by
  obtain ⟨e⟩ := f
  simp only [VMReg.as_FloatRegister, fpr_value, max_slots_per_register, as_FloatRegister,
    add_sub_cancel_right]
  congr 1
  exact Int.mul_tdiv_cancel _ (by decide)

theorem fpr_inj (f1 f2 : FloatRegister) (h : f1.as_VMReg P = f2.as_VMReg P) : f1 = f2 := by
  rw [← fpr_as_FloatRegister P f1, ← fpr_as_FloatRegister P f2, h]

theorem fpr_ne_gpr (f : FloatRegister) (r : Register) (hf : f.is_valid P)
    (hr : r.is_valid P) : f.as_VMReg P ≠ r.as_VMReg := by
  intro h
  have h1 := fpr_is_Register P f hf
  rw [h, gpr_is_Register P r hr] at h1
  exact absurd h1 (by decide)

theorem stack_is_stack (idx : Nat) : (VMReg.stack2reg P idx).is_stack P = true := by
  simp [VMReg.is_stack, VMReg.stack2reg]

theorem stack_is_Register (idx : Nat) : (VMReg.stack2reg P idx).is_Register P = false := by
  have hs := P.stack_0_above
  simp only [VMReg.is_Register, VMReg.stack2reg, Platform.max_gpr, max_slots_per_register,
    decide_eq_false_iff_not]
  omega

theorem stack_is_FloatRegister (idx : Nat) :
    (VMReg.stack2reg P idx).is_FloatRegister P = false := by
  have hs := P.stack_0_above
  simp only [VMReg.is_FloatRegister, VMReg.stack2reg, Platform.max_gpr, Platform.max_fpr,
    max_slots_per_register, decide_eq_false_iff_not]
  omega

theorem stack_is_reg (idx : Nat) : (VMReg.stack2reg P idx).is_reg P = false := by
  simp [VMReg.is_reg, stack_is_stack]

theorem stack_reg2stack (idx : Nat) : (VMReg.stack2reg P idx).reg2stack P = idx := by
  simp [VMReg.reg2stack, VMReg.stack2reg]

theorem stack_ne_of_not_stack (idx : Nat) (v : VMReg) (h : v.is_stack P = false) :
    v ≠ VMReg.stack2reg P idx := by
  intro e
  rw [e, stack_is_stack] at h
  exact absurd h (by decide)

theorem is_Register_not_stack (v : VMReg) (h : v.is_Register P = true) :
    v.is_stack P = false := by
  have hs := P.stack_0_above
  simp only [VMReg.is_Register, Platform.max_gpr, max_slots_per_register,
    decide_eq_true_eq] at h
  simp only [VMReg.is_stack, decide_eq_false_iff_not]
  omega

theorem is_FloatRegister_not_stack (v : VMReg) (h : v.is_FloatRegister P = true) :
    v.is_stack P = false := by
  have hs := P.stack_0_above
  simp only [VMReg.is_FloatRegister, Platform.max_gpr, Platform.max_fpr,
    max_slots_per_register, decide_eq_true_eq] at h
  simp only [VMReg.is_stack, decide_eq_false_iff_not]
  omega

theorem is_FloatRegister_not_Register (v : VMReg) (h : v.is_FloatRegister P = true) :
    v.is_Register P = false := by
  simp only [VMReg.is_FloatRegister, decide_eq_true_eq] at h
  simp only [VMReg.is_Register, decide_eq_false_iff_not]
  omega

theorem single_phys_reg_not_stack (p : VMRegPair) (h : p.is_single_phys_reg P = true) :
    p.first.is_stack P = false := by
  simp only [VMRegPair.is_single_phys_reg, VMReg.is_reg, Bool.and_eq_true,
    Bool.not_eq_true', decide_eq_true_eq] at h
  exact h.1.2

end locations

/-! ## Registers and memory of the machine -/

section machine

variable (P : Platform)

theorem get_x_zr (s : Machine) : s.get_x P P.zr = 0 := by
  simp [Machine.get_x]

theorem get_x_lt (s : Machine) (r : Register) : s.get_x P r < 2 ^ 64 := by
  unfold Machine.get_x
  split_ifs
  · decide
  · exact Nat.mod_lt _ (by decide)

theorem get_x_set_x_same (s : Machine) (r : Register) (v : Nat) (h : r ≠ P.zr) :
    (s.set_x P r v).get_x P r = v % 2 ^ 64 := by
  simp [Machine.get_x, Machine.set_x, h]

theorem sign_extend32_lt (v : Nat) : sign_extend32 v < 2 ^ 64 := by
  unfold sign_extend32
  split_ifs <;> omega

theorem store_x (s : Machine) (a v n : Nat) : (s.store a v n).x = s.x := by
  induction n generalizing s a v with
  | zero => rfl
  | succ n ih => simp [Machine.store, ih]

theorem store_mem_other (s : Machine) (a v n b : Nat)
    (h : ∀ i, i < n → (a + i) % 2 ^ 64 ≠ b) : (s.store a v n).mem b = s.mem b := by
  induction n generalizing s a v with
  | zero => rfl
  | succ n ih =>
    simp only [Machine.store]
    rw [ih]
    · have h0 := h 0 (Nat.succ_pos n)
      simp only [Nat.add_zero] at h0
      exact Function.update_noteq (Ne.symm h0) _ _
    · intro i hi
      have := h (i + 1) (Nat.succ_lt_succ hi)
      rwa [Nat.add_assoc, Nat.add_comm 1 i]

theorem load_congr (s1 s2 : Machine) (h : s1.mem = s2.mem) (a n : Nat) :
    s1.load a n = s2.load a n := by
  induction n generalizing a with
  | zero => rfl
  | succ n ih => simp [Machine.load, h, ih]

theorem load_store (s : Machine) (a v m n : Nat) (h : m ≤ n) (h8 : n ≤ 8) :
    (s.store a v n).load a m = v % 256 ^ m := by
  induction m generalizing s a v n with
  | zero => simp [Machine.load, Nat.mod_one]
  | succ m ih =>
    obtain ⟨k, rfl⟩ : ∃ k, n = k + 1 := ⟨n - 1, by omega⟩
    have e : (256 : Nat) ^ (m + 1) = 256 * 256 ^ m := pow_succ' 256 m
    simp only [Machine.load, Machine.store]
    rw [ih _ _ _ k (by omega) (by omega), store_mem_other]
    · simp only [Function.update_same, Nat.mod_mod]
      rw [e, Nat.mod_mul]
    · intro i hi
      have : i < 8 := by omega
      norm_num
      omega

theorem get_x_store (s : Machine) (a v n : Nat) (r : Register) :
    (s.store a v n).get_x P r = s.get_x P r := by
  simp [Machine.get_x, store_x]

theorem ea_store (s : Machine) (a v n : Nat) (adr : Address) :
    (s.store a v n).ea P adr = s.ea P adr := by
  simp [Machine.ea, get_x_store]

theorem load_set_f (s : Machine) (r : FloatRegister) (v a n : Nat) :
    (s.set_f r v).load a n = s.load a n :=
  load_congr (s.set_f r v) s rfl a n

theorem ea_set_f (s : Machine) (r : FloatRegister) (v : Nat) (adr : Address) :
    (s.set_f r v).ea P adr = s.ea P adr := rfl

theorem get_f_set_f_same (s : Machine) (r : FloatRegister) (v : Nat) :
    (s.set_f r v).get_f r = v % 2 ^ 64 := by
  simp [Machine.get_f, Machine.set_f]

end machine

/-! ## The shuffle loop -/

theorem pd_generate_loop_append (P : Platform) (ms1 ms2 : List Move) (masm : MacroAssembler) :
    pd_generate_loop P (ms1 ++ ms2) masm =
      match pd_generate_loop P ms1 masm with
      | .ok masm1 => pd_generate_loop P ms2 masm1
      | .aborted fault masm1 => .aborted fault masm1 := by
  induction ms1 generalizing masm with
  | nil => simp [pd_generate_loop]
  | cons m ms ih =>
    simp only [List.cons_append, pd_generate_loop]
    cases h : pd_generate_move P masm m with
    | ok masm1 => simp [ih]
    | aborted fault masm1 => simp

theorem pd_generate_move_unsupported (P : Platform) (masm : MacroAssembler) (m : Move)
    (h : m.bt.is_supported = false) :
    pd_generate_move P masm m = .aborted (.fatal m.bt) (masm.block_comment m.bt) := by
  obtain ⟨bt, src, dst⟩ := m
  cases bt <;> simp_all [BasicType.is_supported, pd_generate_move]

/-- C1: a move whose value-type tag is outside the eight supported ones makes
`pd_generate` stop the VM: the run of any list that holds such a move is
aborted, and when the moves before it were generated (leaving the assembler
`masm1`), the abort is the `fatal` of that move and the instructions emitted
are exactly those of the moves before it. -/
theorem pd_generate_fatal_on_unsupported_type (P : Platform) (before after : List Move)
    (m : Move) (masm : MacroAssembler) (tmp : VMReg) (in_stk_bias out_stk_bias : Int)
    (hm : m.bt.is_supported = false) :
    (ArgumentShuffle.pd_generate P ⟨before ++ m :: after⟩ masm tmp
        in_stk_bias out_stk_bias).is_ok = false ∧
    ∀ masm1, ArgumentShuffle.pd_generate P ⟨before⟩ masm tmp in_stk_bias out_stk_bias
        = .ok masm1 →
      ArgumentShuffle.pd_generate P ⟨before ++ m :: after⟩ masm tmp in_stk_bias out_stk_bias
        = .aborted (.fatal m.bt) (masm1.block_comment m.bt) ∧
      (masm1.block_comment m.bt).code = masm1.code := by
  simp only [ArgumentShuffle.pd_generate, pd_generate_loop_append]
  constructor
  · cases pd_generate_loop P before masm with
    | ok masm1 =>
      simp [pd_generate_loop, pd_generate_move_unsupported P masm1 m hm, Outcome.is_ok]
    | aborted fault masm1 => simp [Outcome.is_ok]
  · intro masm1 h1
    rw [h1]
    simp [pd_generate_loop, pd_generate_move_unsupported P masm1 m hm,
      MacroAssembler.block_comment]

theorem pd_generate_fatal_on_unsupported_type_witness :
    (ArgumentShuffle.pd_generate (riscv64 true)
        ⟨[⟨T_LONG, .set2 (Register.as_VMReg ⟨10⟩), .set2 (Register.as_VMReg ⟨11⟩)⟩] ++
          ⟨T_OBJECT, .set2 (Register.as_VMReg ⟨12⟩), .set2 (Register.as_VMReg ⟨13⟩)⟩ ::
          [⟨T_INT, .set1 (Register.as_VMReg ⟨14⟩), .set1 (Register.as_VMReg ⟨15⟩)⟩]⟩
        .empty (Register.as_VMReg ⟨5⟩) 0 0).is_ok = false ∧
    ArgumentShuffle.pd_generate (riscv64 true)
        ⟨[⟨T_LONG, .set2 (Register.as_VMReg ⟨10⟩), .set2 (Register.as_VMReg ⟨11⟩)⟩] ++
          ⟨T_OBJECT, .set2 (Register.as_VMReg ⟨12⟩), .set2 (Register.as_VMReg ⟨13⟩)⟩ ::
          [⟨T_INT, .set1 (Register.as_VMReg ⟨14⟩), .set1 (Register.as_VMReg ⟨15⟩)⟩]⟩
        .empty (Register.as_VMReg ⟨5⟩) 0 0
      = .aborted (.fatal T_OBJECT) ⟨[mv ⟨11⟩ ⟨10⟩], [(0, T_LONG), (1, T_OBJECT)]⟩ :=
  have h := pd_generate_fatal_on_unsupported_type (riscv64 true)
    [⟨T_LONG, .set2 (Register.as_VMReg ⟨10⟩), .set2 (Register.as_VMReg ⟨11⟩)⟩]
    [⟨T_INT, .set1 (Register.as_VMReg ⟨14⟩), .set1 (Register.as_VMReg ⟨15⟩)⟩]
    ⟨T_OBJECT, .set2 (Register.as_VMReg ⟨12⟩), .set2 (Register.as_VMReg ⟨13⟩)⟩
    .empty (Register.as_VMReg ⟨5⟩) 0 0 (by decide)
  ⟨h.1, (h.2 ⟨[mv ⟨11⟩ ⟨10⟩], [(0, T_LONG)]⟩ (by decide)).1⟩

/-! ## Stack offsets -/

theorem emitted_block_comment (o : Outcome) (masm : MacroAssembler) (bt : BasicType) :
    o.emitted (masm.block_comment bt) = o.emitted masm := rfl

theorem long_move_offsets (P : Platform) (masm masm1 : MacroAssembler) (src dst : VMRegPair)
    (h : long_move P masm src dst = .ok masm1) :
    masm1.code = masm.code ++ (Outcome.ok masm1).emitted masm ∧
      offsets_unbiased P src.first dst.first ((Outcome.ok masm1).emitted masm) := by
  unfold long_move at h
  split_ifs at h <;> cases h <;>
    simp_all [Outcome.emitted, Outcome.masm, MacroAssembler.emit, offsets_unbiased,
      Instruction.load_adr, Instruction.store_adr]


theorem move32_64_offsets (P : Platform) (masm masm1 : MacroAssembler) (src dst : VMRegPair)
    (h : move32_64 P masm src dst = .ok masm1) :
    masm1.code = masm.code ++ (Outcome.ok masm1).emitted masm ∧
      offsets_unbiased P src.first dst.first ((Outcome.ok masm1).emitted masm) := by
  unfold move32_64 at h
  split_ifs at h <;> cases h <;>
    simp_all [Outcome.emitted, Outcome.masm, MacroAssembler.emit, offsets_unbiased,
      Instruction.load_adr, Instruction.store_adr]

theorem double_move_offsets (P : Platform) (masm masm1 : MacroAssembler) (src dst : VMRegPair)
    (h : double_move P masm src dst = .ok masm1) :
    masm1.code = masm.code ++ (Outcome.ok masm1).emitted masm ∧
      offsets_unbiased P src.first dst.first ((Outcome.ok masm1).emitted masm) := by
  have hs := single_phys_reg_not_stack P dst
  have hr := is_Register_not_stack P dst.first
  unfold double_move at h
  split_ifs at h <;> cases h <;>
    simp_all [Outcome.emitted, Outcome.masm, MacroAssembler.emit, offsets_unbiased,
      Instruction.load_adr, Instruction.store_adr]

theorem float_move_offsets (P : Platform) (masm masm1 : MacroAssembler) (src dst : VMRegPair)
    (h : float_move P masm src dst = .ok masm1) :
    masm1.code = masm.code ++ (Outcome.ok masm1).emitted masm ∧
      offsets_unbiased P src.first dst.first ((Outcome.ok masm1).emitted masm) := by
  have hs := single_phys_reg_not_stack P dst
  have hr := is_Register_not_stack P dst.first
  unfold float_move at h
  split_ifs at h <;> cases h <;>
    simp_all [Outcome.emitted, Outcome.masm, MacroAssembler.emit, offsets_unbiased,
      Instruction.load_adr, Instruction.store_adr]

theorem move_float_to_integer_or_stack_offsets (P : Platform)
    (masm masm1 : MacroAssembler) (src dst : VMRegPair)
    (h : move_float_to_integer_or_stack P masm src dst = .ok masm1) :
    masm1.code = masm.code ++ (Outcome.ok masm1).emitted masm ∧
      offsets_unbiased P src.first dst.first ((Outcome.ok masm1).emitted masm) := by
  have hs := single_phys_reg_not_stack P dst
  have hr := is_Register_not_stack P dst.first
  unfold move_float_to_integer_or_stack at h
  split_ifs at h <;> cases h <;>
    simp_all [Outcome.emitted, Outcome.masm, MacroAssembler.emit, offsets_unbiased,
      Instruction.load_adr, Instruction.store_adr]

theorem move_double_to_integer_or_stack_offsets (P : Platform)
    (masm masm1 : MacroAssembler) (src dst : VMRegPair)
    (h : move_double_to_integer_or_stack P masm src dst = .ok masm1) :
    masm1.code = masm.code ++ (Outcome.ok masm1).emitted masm ∧
      offsets_unbiased P src.first dst.first ((Outcome.ok masm1).emitted masm) := by
  have hs := single_phys_reg_not_stack P dst
  have hr := is_Register_not_stack P dst.first
  unfold move_double_to_integer_or_stack at h
  split_ifs at h <;> cases h <;>
    simp_all [Outcome.emitted, Outcome.masm, MacroAssembler.emit, offsets_unbiased,
      Instruction.load_adr, Instruction.store_adr]

theorem pd_generate_move_offsets (P : Platform) (masm masm1 : MacroAssembler) (m : Move)
    (h : pd_generate_move P masm m = .ok masm1) :
    masm1.code = masm.code ++ (Outcome.ok masm1).emitted masm ∧
      offsets_unbiased P m.from_vmreg.first m.to_vmreg.first
        ((Outcome.ok masm1).emitted masm) := by
  obtain ⟨bt, src, dst⟩ := m
  have hc : (masm.block_comment bt).code = masm.code := rfl
  rw [← emitted_block_comment _ masm bt, ← hc]
  cases bt <;> simp only [pd_generate_move] at h
  case T_BOOLEAN | T_BYTE | T_SHORT | T_CHAR | T_INT => exact move32_64_offsets P _ _ _ _ h
  case T_LONG => exact long_move_offsets P _ _ _ _ h
  case T_FLOAT =>
    split_ifs at h
    · exact move_float_to_integer_or_stack_offsets P _ _ _ _ h
    · exact float_move_offsets P _ _ _ _ h
  case T_DOUBLE =>
    split_ifs at h
    · exact move_double_to_integer_or_stack_offsets P _ _ _ _ h
    · exact double_move_offsets P _ _ _ _ h
  all_goals exact absurd h (by simp)

/-- C2, the claim as stated fails: with `in_stk_bias = 16` and
`out_stk_bias = 32`, the load of the long in stack slot 4 reads offset 16 (the
slot's own byte offset, not 16 + 16), and the store of a long to stack slot 6
writes offset 24 (not 24 + 32). -/
theorem pd_generate_bias_not_added :
    ArgumentShuffle.pd_generate (riscv64 false)
        ⟨[⟨T_LONG, .set2 (VMReg.stack2reg (riscv64 false) 4), .set2 (Register.as_VMReg ⟨12⟩)⟩,
          ⟨T_LONG, .set2 (Register.as_VMReg ⟨13⟩), .set2 (VMReg.stack2reg (riscv64 false) 6)⟩]⟩
        .empty (Register.as_VMReg ⟨5⟩) 16 32
      = .ok ⟨[ld ⟨12⟩ ⟨⟨8⟩, 16⟩, sd ⟨13⟩ ⟨⟨2⟩, 24⟩], [(0, T_LONG), (1, T_LONG)]⟩ ∧
    reg2offset_in (riscv64 false) (VMReg.stack2reg (riscv64 false) 4) + 16 = 32 ∧
    reg2offset_out (riscv64 false) (VMReg.stack2reg (riscv64 false) 6) + 32 = 56 := by
  decide

/-- C2 as amended: for every move that `pd_generate` processes, whatever the
two biases, the instructions it emits are the same as with both biases zero;
every load reads `fp + reg2offset_in(source)`, every store writes
`sp + reg2offset_out(destination)`, a stack source is loaded and a stack
destination is stored. Neither bias is added to any offset. -/
theorem pd_generate_stack_offsets_unbiased (P : Platform) (m : Move)
    (masm masm1 : MacroAssembler) (tmp : VMReg) (in_stk_bias out_stk_bias : Int)
    (h : ArgumentShuffle.pd_generate P ⟨[m]⟩ masm tmp in_stk_bias out_stk_bias = .ok masm1) :
    ArgumentShuffle.pd_generate P ⟨[m]⟩ masm tmp 0 0 = .ok masm1 ∧
    masm1.code = masm.code ++ (Outcome.ok masm1).emitted masm ∧
    offsets_unbiased P m.from_vmreg.first m.to_vmreg.first
      ((Outcome.ok masm1).emitted masm) := by
  refine ⟨h, ?_⟩
  simp only [ArgumentShuffle.pd_generate, pd_generate_loop] at h
  cases h1 : pd_generate_move P masm m with
  | ok masm2 =>
    rw [h1] at h
    obtain rfl : masm2 = masm1 := by simpa [pd_generate_loop] using h
    exact pd_generate_move_offsets P masm masm2 m h1
  | aborted fault masm2 =>
    rw [h1] at h
    cases h

theorem pd_generate_stack_offsets_unbiased_witness :
    ArgumentShuffle.pd_generate (riscv64 false)
        ⟨[⟨T_INT, .set1 (VMReg.stack2reg (riscv64 false) 4),
            .set1 (VMReg.stack2reg (riscv64 false) 6)⟩]⟩
        .empty (Register.as_VMReg ⟨5⟩) 0 0
      = .ok ⟨[ld ⟨5⟩ ⟨⟨8⟩, 16⟩, sd ⟨5⟩ ⟨⟨2⟩, 24⟩], [(0, T_INT)]⟩ ∧
    ([ld ⟨5⟩ ⟨⟨8⟩, 16⟩, sd ⟨5⟩ ⟨⟨2⟩, 24⟩] : List Instruction)
      = [] ++ (Outcome.ok ⟨[ld ⟨5⟩ ⟨⟨8⟩, 16⟩, sd ⟨5⟩ ⟨⟨2⟩, 24⟩], [(0, T_INT)]⟩).emitted .empty ∧
    offsets_unbiased (riscv64 false) (VMReg.stack2reg (riscv64 false) 4)
      (VMReg.stack2reg (riscv64 false) 6)
      ((Outcome.ok ⟨[ld ⟨5⟩ ⟨⟨8⟩, 16⟩, sd ⟨5⟩ ⟨⟨2⟩, 24⟩], [(0, T_INT)]⟩).emitted .empty) :=
  pd_generate_stack_offsets_unbiased (riscv64 false)
    ⟨T_INT, .set1 (VMReg.stack2reg (riscv64 false) 4), .set1 (VMReg.stack2reg (riscv64 false) 6)⟩
    .empty ⟨[ld ⟨5⟩ ⟨⟨8⟩, 16⟩, sd ⟨5⟩ ⟨⟨2⟩, 24⟩], [(0, T_INT)]⟩ (Register.as_VMReg ⟨5⟩) 16 32
    (by decide)

/-! ## Sub-word integers and the stack -/

/-- C5, the claim as stated fails: the int move from stack slot 4 to the
register `a0` emits `lw`, a 32-bit load. -/
theorem move32_64_stack_to_reg_loads_32_bits :
    ArgumentShuffle.pd_generate (riscv64 false)
        ⟨[⟨T_INT, .set1 (VMReg.stack2reg (riscv64 false) 4), .set1 (Register.as_VMReg ⟨10⟩)⟩]⟩
        .empty (Register.as_VMReg ⟨5⟩) 0 0
      = .ok ⟨[lw ⟨10⟩ ⟨⟨8⟩, 16⟩], [(0, T_INT)]⟩ ∧
    (lw ⟨10⟩ ⟨⟨8⟩, 16⟩).access_width = some 32 := by
  decide

/-- C5 as amended: for every sub-word integer move in which the source or the
destination is a stack slot, generation does not abort; stack to stack emits
the 64-bit load `ld` into `t0` and the 64-bit store `sd` of `t0`; register to
stack emits one 64-bit store `sd`; stack to register emits one `lw`, a 32-bit
load. Every store emitted is 64 bits wide, and so is every memory access
other than that `lw`. -/
theorem subword_stack_accesses (P : Platform) (bt : BasicType) (src dst : VMRegPair)
    (masm : MacroAssembler) (tmp : VMReg) (in_stk_bias out_stk_bias : Int)
    (hbt : bt.is_subword = true)
    (hstack : src.first.is_stack P = true ∨ dst.first.is_stack P = true) :
    (src.first.is_stack P = true → dst.first.is_stack P = true →
      ArgumentShuffle.pd_generate P ⟨[⟨bt, src, dst⟩]⟩ masm tmp in_stk_bias out_stk_bias
        = .ok (((masm.block_comment bt).emit
            (ld P.t0 ⟨P.fp, reg2offset_in P src.first⟩)).emit
            (sd P.t0 ⟨P.sp, reg2offset_out P dst.first⟩))) ∧
    (src.first.is_stack P = true → dst.first.is_stack P = false →
      ArgumentShuffle.pd_generate P ⟨[⟨bt, src, dst⟩]⟩ masm tmp in_stk_bias out_stk_bias
        = .ok ((masm.block_comment bt).emit
            (lw dst.first.as_Register ⟨P.fp, reg2offset_in P src.first⟩))) ∧
    (src.first.is_stack P = false → dst.first.is_stack P = true →
      ArgumentShuffle.pd_generate P ⟨[⟨bt, src, dst⟩]⟩ masm tmp in_stk_bias out_stk_bias
        = .ok ((masm.block_comment bt).emit
            (sd src.first.as_Register ⟨P.sp, reg2offset_out P dst.first⟩))) ∧
    (∀ i ∈ (ArgumentShuffle.pd_generate P ⟨[⟨bt, src, dst⟩]⟩ masm tmp
          in_stk_bias out_stk_bias).emitted masm,
      (i.store_adr ≠ none → i.access_width = some 64) ∧
      (i.load_adr ≠ none → i.access_width ≠ some 64 →
        i = lw dst.first.as_Register ⟨P.fp, reg2offset_in P src.first⟩ ∧
        dst.first.is_stack P = false)) := by
  have hgen : ArgumentShuffle.pd_generate P ⟨[⟨bt, src, dst⟩]⟩ masm tmp in_stk_bias
      out_stk_bias = move32_64 P (masm.block_comment bt) src dst := by
    cases bt <;> simp_all [BasicType.is_subword, ArgumentShuffle.pd_generate,
      pd_generate_loop, pd_generate_move] <;>
      cases move32_64 P _ src dst <;> rfl
  rw [hgen]
  unfold move32_64
  by_cases h1 : src.first.is_stack P = true <;> by_cases h2 : dst.first.is_stack P = true <;>
    simp_all [Outcome.emitted, Outcome.masm, MacroAssembler.emit, MacroAssembler.block_comment,
      Instruction.load_adr, Instruction.store_adr, Instruction.access_width]

theorem subword_stack_accesses_witness :
    ArgumentShuffle.pd_generate (riscv64 true)
        ⟨[⟨T_SHORT, .set1 (Register.as_VMReg ⟨10⟩), .set1 (VMReg.stack2reg (riscv64 true) 6)⟩]⟩
        .empty (Register.as_VMReg ⟨5⟩) 0 0
      = .ok ((MacroAssembler.empty.block_comment T_SHORT).emit
          (sd (VMRegPair.set1 (Register.as_VMReg ⟨10⟩)).first.as_Register
            ⟨(riscv64 true).sp, reg2offset_out (riscv64 true)
              (VMRegPair.set1 (VMReg.stack2reg (riscv64 true) 6)).first⟩)) :=
  (subword_stack_accesses (riscv64 true) T_SHORT (.set1 (Register.as_VMReg ⟨10⟩))
    (.set1 (VMReg.stack2reg (riscv64 true) 6)) .empty (Register.as_VMReg ⟨5⟩) 0 0
    (by decide) (Or.inr (by decide))).2.2.1 (by decide) (by decide)

/-! ## Moves between registers -/

theorem physical_register_not_stack (P : Platform) (v : VMReg)
    (h : v.is_physical_register P) : v.is_stack P = false ∧ v.is_reg P = true := by
  rcases h with ⟨r, hr, rfl⟩ | ⟨f, hf, rfl⟩
  · exact ⟨gpr_is_stack P r hr, gpr_is_reg P r hr⟩
  · exact ⟨fpr_is_stack P f hf, fpr_is_reg P f hf⟩

/-- C6: for every supported value type and every integer or float register, a
move whose source and destination are that same register makes `pd_generate`
return normally without emitting an instruction. -/
theorem pd_generate_same_register_emits_nothing (P : Platform) (bt : BasicType) (v : VMReg)
    (src_second dst_second : VMReg) (masm : MacroAssembler) (tmp : VMReg)
    (in_stk_bias out_stk_bias : Int)
    (hbt : bt.is_supported = true) (hv : v.is_physical_register P) :
    ArgumentShuffle.pd_generate P ⟨[⟨bt, ⟨v, src_second⟩, ⟨v, dst_second⟩⟩]⟩ masm tmp
        in_stk_bias out_stk_bias = .ok (masm.block_comment bt) ∧
    (masm.block_comment bt).code = masm.code := by
  obtain ⟨hs, hr⟩ := physical_register_not_stack P v hv
  refine ⟨?_, rfl⟩
  cases bt <;> simp_all [BasicType.is_supported, ArgumentShuffle.pd_generate,
    pd_generate_loop, pd_generate_move, move32_64, long_move, float_move, double_move,
    move_float_to_integer_or_stack, move_double_to_integer_or_stack, shape_assert]

theorem pd_generate_same_register_emits_nothing_witness :
    ArgumentShuffle.pd_generate (riscv64 true)
        ⟨[⟨T_FLOAT, ⟨FloatRegister.as_VMReg (riscv64 true) ⟨10⟩, VMReg.Bad⟩,
            ⟨FloatRegister.as_VMReg (riscv64 true) ⟨10⟩, VMReg.Bad⟩⟩]⟩
        .empty (Register.as_VMReg ⟨5⟩) 0 0 = .ok (MacroAssembler.empty.block_comment T_FLOAT) ∧
    (MacroAssembler.empty.block_comment T_FLOAT).code = MacroAssembler.empty.code :=
  pd_generate_same_register_emits_nothing (riscv64 true) T_FLOAT
    (FloatRegister.as_VMReg (riscv64 true) ⟨10⟩) VMReg.Bad VMReg.Bad .empty
    (Register.as_VMReg ⟨5⟩) 0 0 (by decide) (Or.inr ⟨⟨10⟩, by decide, rfl⟩)

/-! ## Float and double moves -/

/-- C7: for every float-typed move out of a float register `f`: into an
integer register `r`, exactly one instruction is emitted, `fmv_x_w r, f`, the
move of the 32 bits of `f` into `r`; into a stack slot, exactly one
instruction is emitted, `fsw`, the 32-bit store of `f` at the stack-pointer
relative offset of the slot. -/
theorem float_from_float_register (P : Platform) (f : FloatRegister) (r : Register)
    (idx : Nat) (src_second dst_second : VMReg) (masm : MacroAssembler) (tmp : VMReg)
    (in_stk_bias out_stk_bias : Int) (hf : f.is_valid P) (hr : r.is_valid P) :
    ArgumentShuffle.pd_generate P
        ⟨[⟨T_FLOAT, ⟨f.as_VMReg P, src_second⟩, ⟨r.as_VMReg, dst_second⟩⟩]⟩ masm tmp
        in_stk_bias out_stk_bias
      = .ok ((masm.block_comment T_FLOAT).emit (fmv_x_w r f)) ∧
    ArgumentShuffle.pd_generate P
        ⟨[⟨T_FLOAT, ⟨f.as_VMReg P, src_second⟩, ⟨VMReg.stack2reg P idx, dst_second⟩⟩]⟩ masm tmp
        in_stk_bias out_stk_bias
      = .ok ((masm.block_comment T_FLOAT).emit
          (fsw f ⟨P.sp, reg2offset_out P (VMReg.stack2reg P idx)⟩)) ∧
    (fsw f ⟨P.sp, reg2offset_out P (VMReg.stack2reg P idx)⟩).access_width = some 32 := by
  have h1 := fpr_is_stack P f hf
  have h2 := fpr_is_FloatRegister P f hf
  have h3 := gpr_is_stack P r hr
  have h4 := gpr_is_Register P r hr
  have h5 := gpr_is_FloatRegister P r hr
  have h6 := fpr_ne_gpr P f r hf hr
  have h7 := stack_ne_of_not_stack P idx _ h1
  have h8 := stack_is_Register P idx
  have h9 := stack_is_FloatRegister P idx
  have h10 := stack_is_stack P idx
  refine ⟨?_, ?_, rfl⟩
  · simp [ArgumentShuffle.pd_generate, pd_generate_loop, pd_generate_move,
      move_float_to_integer_or_stack, h1, h2, h3, h4, h5, h6, gpr_as_Register P r hr,
      fpr_as_FloatRegister]
  · simp [ArgumentShuffle.pd_generate, pd_generate_loop, pd_generate_move,
      move_float_to_integer_or_stack, h1, h2, h7, h8, h9, h10, fpr_as_FloatRegister]

theorem float_from_float_register_witness :
    ArgumentShuffle.pd_generate (riscv64 true)
        ⟨[⟨T_FLOAT, ⟨FloatRegister.as_VMReg (riscv64 true) ⟨10⟩, VMReg.Bad⟩,
            ⟨Register.as_VMReg ⟨10⟩, VMReg.Bad⟩⟩]⟩ .empty (Register.as_VMReg ⟨5⟩) 0 0
      = .ok ((MacroAssembler.empty.block_comment T_FLOAT).emit (fmv_x_w ⟨10⟩ ⟨10⟩)) ∧
    ArgumentShuffle.pd_generate (riscv64 true)
        ⟨[⟨T_FLOAT, ⟨FloatRegister.as_VMReg (riscv64 true) ⟨10⟩, VMReg.Bad⟩,
            ⟨VMReg.stack2reg (riscv64 true) (6 : Nat), VMReg.Bad⟩⟩]⟩ .empty
        (Register.as_VMReg ⟨5⟩) 0 0
      = .ok ((MacroAssembler.empty.block_comment T_FLOAT).emit
          (fsw ⟨10⟩ ⟨(riscv64 true).sp,
            reg2offset_out (riscv64 true) (VMReg.stack2reg (riscv64 true) (6 : Nat))⟩)) ∧
    (fsw ⟨10⟩ ⟨(riscv64 true).sp,
        reg2offset_out (riscv64 true)
          (VMReg.stack2reg (riscv64 true) (6 : Nat))⟩).access_width
      = some 32 :=
  float_from_float_register (riscv64 true) ⟨10⟩ ⟨10⟩ 6 VMReg.Bad VMReg.Bad .empty
    (Register.as_VMReg ⟨5⟩) 0 0 (by decide) (by decide)

/-- C8, the code at the failing input: the double move from the float register
`fa0` to stack slot 6 stops the VM with `ShouldNotReachHere` and emits
nothing, in the debug and in the product build, while the float move of the
sibling generator between the same locations emits the store `fsw`. The
double move from `fa0` to the integer register `a0` emits the one
`fmv_x_d`. -/
theorem double_register_to_stack_aborts :
    ArgumentShuffle.pd_generate (riscv64 false)
        ⟨[⟨T_DOUBLE, .set2 (FloatRegister.as_VMReg (riscv64 false) ⟨10⟩),
            .set2 (VMReg.stack2reg (riscv64 false) 6)⟩]⟩ .empty (Register.as_VMReg ⟨5⟩) 0 0
      = .aborted .ShouldNotReachHere ⟨[], [(0, T_DOUBLE)]⟩ ∧
    ArgumentShuffle.pd_generate (riscv64 true)
        ⟨[⟨T_DOUBLE, .set2 (FloatRegister.as_VMReg (riscv64 true) ⟨10⟩),
            .set2 (VMReg.stack2reg (riscv64 true) 6)⟩]⟩ .empty (Register.as_VMReg ⟨5⟩) 0 0
      = .aborted .ShouldNotReachHere ⟨[], [(0, T_DOUBLE)]⟩ ∧
    ArgumentShuffle.pd_generate (riscv64 false)
        ⟨[⟨T_FLOAT, .set1 (FloatRegister.as_VMReg (riscv64 false) ⟨10⟩),
            .set1 (VMReg.stack2reg (riscv64 false) 6)⟩]⟩ .empty (Register.as_VMReg ⟨5⟩) 0 0
      = .ok ⟨[fsw ⟨10⟩ ⟨⟨2⟩, 24⟩], [(0, T_FLOAT)]⟩ ∧
    ArgumentShuffle.pd_generate (riscv64 true)
        ⟨[⟨T_DOUBLE, .set2 (FloatRegister.as_VMReg (riscv64 true) ⟨10⟩),
            .set2 (Register.as_VMReg ⟨10⟩)⟩]⟩ .empty (Register.as_VMReg ⟨5⟩) 0 0
      = .ok ⟨[fmv_x_d ⟨10⟩ ⟨10⟩], [(0, T_DOUBLE)]⟩ := by
  decide

/-- C9, the code at the failing input: the float move and the double move from
stack slot 4 to the float register `fa0` stop the VM with
`ShouldNotReachHere` and emit nothing, in the debug and in the product build,
although the assertion of `float_move` and `double_move` admits the shape
(stack source, register destination). -/
theorem stack_to_float_register_aborts :
    ArgumentShuffle.pd_generate (riscv64 false)
        ⟨[⟨T_FLOAT, .set1 (VMReg.stack2reg (riscv64 false) 4),
            .set1 (FloatRegister.as_VMReg (riscv64 false) ⟨10⟩)⟩]⟩ .empty
        (Register.as_VMReg ⟨5⟩) 0 0
      = .aborted .ShouldNotReachHere ⟨[], [(0, T_FLOAT)]⟩ ∧
    ArgumentShuffle.pd_generate (riscv64 true)
        ⟨[⟨T_FLOAT, .set1 (VMReg.stack2reg (riscv64 true) 4),
            .set1 (FloatRegister.as_VMReg (riscv64 true) ⟨10⟩)⟩]⟩ .empty
        (Register.as_VMReg ⟨5⟩) 0 0
      = .aborted .ShouldNotReachHere ⟨[], [(0, T_FLOAT)]⟩ ∧
    ArgumentShuffle.pd_generate (riscv64 false)
        ⟨[⟨T_DOUBLE, .set2 (VMReg.stack2reg (riscv64 false) 4),
            .set2 (FloatRegister.as_VMReg (riscv64 false) ⟨10⟩)⟩]⟩ .empty
        (Register.as_VMReg ⟨5⟩) 0 0
      = .aborted .ShouldNotReachHere ⟨[], [(0, T_DOUBLE)]⟩ ∧
    ArgumentShuffle.pd_generate (riscv64 true)
        ⟨[⟨T_DOUBLE, .set2 (VMReg.stack2reg (riscv64 true) 4),
            .set2 (FloatRegister.as_VMReg (riscv64 true) ⟨10⟩)⟩]⟩ .empty
        (Register.as_VMReg ⟨5⟩) 0 0
      = .aborted .ShouldNotReachHere ⟨[], [(0, T_DOUBLE)]⟩ ∧
    shape_assert (riscv64 true) (.set1 (VMReg.stack2reg (riscv64 true) 4))
      (.set1 (FloatRegister.as_VMReg (riscv64 true) ⟨10⟩)) = true := by
  decide

/-- C10: for every double-typed move between two distinct float registers,
each pair a single physical register, `pd_generate` returns normally and emits
exactly one instruction, `fmv_d` from the source to the destination. -/
theorem double_between_float_registers (P : Platform) (f1 f2 : FloatRegister)
    (src dst : VMRegPair) (masm : MacroAssembler) (tmp : VMReg)
    (in_stk_bias out_stk_bias : Int) (hf1 : f1.is_valid P) (hf2 : f2.is_valid P)
    (hne : f1 ≠ f2) (hsrc : src.first = f1.as_VMReg P) (hdst : dst.first = f2.as_VMReg P)
    (hsrc1 : src.is_single_phys_reg P = true) (hdst1 : dst.is_single_phys_reg P = true) :
    ArgumentShuffle.pd_generate P ⟨[⟨T_DOUBLE, src, dst⟩]⟩ masm tmp in_stk_bias out_stk_bias
      = .ok ((masm.block_comment T_DOUBLE).emit (fmv_d f2 f1)) := by
  have h1 := fpr_is_stack P f1 hf1
  have h2 := fpr_is_FloatRegister P f2 hf2
  have h3 := fpr_is_reg P f1 hf1
  have h4 := fpr_is_reg P f2 hf2
  have h5 : f1.as_VMReg P ≠ f2.as_VMReg P := fun h => hne (fpr_inj P f1 f2 h)
  simp [ArgumentShuffle.pd_generate, pd_generate_loop, pd_generate_move, double_move,
    shape_assert, hsrc, hdst, h1, h2, h3, h4, h5, hsrc1, hdst1, fpr_as_FloatRegister]

theorem double_between_float_registers_witness :
    ArgumentShuffle.pd_generate (riscv64 true)
        ⟨[⟨T_DOUBLE, .set2 (FloatRegister.as_VMReg (riscv64 true) ⟨10⟩),
            .set2 (FloatRegister.as_VMReg (riscv64 true) ⟨11⟩)⟩]⟩ .empty
        (Register.as_VMReg ⟨5⟩) 0 0
      = .ok ((MacroAssembler.empty.block_comment T_DOUBLE).emit (fmv_d ⟨11⟩ ⟨10⟩)) :=
  double_between_float_registers (riscv64 true) ⟨10⟩ ⟨11⟩
    (.set2 (FloatRegister.as_VMReg (riscv64 true) ⟨10⟩))
    (.set2 (FloatRegister.as_VMReg (riscv64 true) ⟨11⟩)) .empty (Register.as_VMReg ⟨5⟩) 0 0
    (by decide) (by decide) (by decide) rfl rfl (by decide) (by decide)

/-! ## The sub-word register move -/

/-- C4, the claim as stated fails: the int move from `a0` to the zero register
`x0` emits the `addw`, and after it `x0` holds 0, not the sign extension of
the low 32 bits of `a0` (here 1). -/
theorem subword_move_into_zero_register :
    ArgumentShuffle.pd_generate (riscv64 false)
        ⟨[⟨T_INT, .set1 (Register.as_VMReg ⟨10⟩), .set1 (Register.as_VMReg ⟨0⟩)⟩]⟩
        .empty (Register.as_VMReg ⟨5⟩) 0 0
      = .ok ⟨[addw ⟨0⟩ ⟨10⟩ ⟨0⟩], [(0, T_INT)]⟩ ∧
    (run (riscv64 false) ⟨fun _ => 1, fun _ => 0, fun _ => 0⟩
        [addw ⟨0⟩ ⟨10⟩ ⟨0⟩]).get_x (riscv64 false) ⟨0⟩ = 0 ∧
    sign_extend32 ((⟨fun _ => 1, fun _ => 0, fun _ => 0⟩ : Machine).get_x
        (riscv64 false) ⟨10⟩) = 1 := by
  decide

/-- C4 as amended: for every sub-word value type and every pair of distinct
integer registers `rs` and `rd`, the move emits exactly one instruction,
`addw rd, rs, zr`; after it `rd`, when it is not the zero register itself,
holds the sign extension to 64 bits of the low 32 bits that `rs` held. -/
theorem subword_register_move (P : Platform) (bt : BasicType) (rs rd : Register)
    (src_second dst_second : VMReg) (masm : MacroAssembler) (tmp : VMReg)
    (in_stk_bias out_stk_bias : Int) (hbt : bt.is_subword = true)
    (hrs : rs.is_valid P) (hrd : rd.is_valid P) (hne : rs ≠ rd) :
    ArgumentShuffle.pd_generate P
        ⟨[⟨bt, ⟨rs.as_VMReg, src_second⟩, ⟨rd.as_VMReg, dst_second⟩⟩]⟩ masm tmp
        in_stk_bias out_stk_bias
      = .ok ((masm.block_comment bt).emit (addw rd rs P.zr)) ∧
    ∀ s : Machine, rd ≠ P.zr →
      (exec P s (addw rd rs P.zr)).get_x P rd = sign_extend32 (s.get_x P rs) := by
  have h1 := gpr_is_stack P rs hrs
  have h2 := gpr_is_stack P rd hrd
  have h3 : rd.as_VMReg ≠ rs.as_VMReg := fun h => hne (gpr_inj P rd rs hrd hrs h).symm
  constructor
  · cases bt <;> simp_all [BasicType.is_subword, ArgumentShuffle.pd_generate,
      pd_generate_loop, pd_generate_move, move32_64, gpr_as_Register P rs hrs,
      gpr_as_Register P rd hrd]
  · intro s hz
    simp only [exec, get_x_zr, Nat.add_zero, get_x_set_x_same P s rd _ hz]
    exact Nat.mod_eq_of_lt (sign_extend32_lt _)

theorem subword_register_move_witness :
    ArgumentShuffle.pd_generate (riscv64 true)
        ⟨[⟨T_INT, ⟨Register.as_VMReg ⟨10⟩, VMReg.Bad⟩, ⟨Register.as_VMReg ⟨11⟩, VMReg.Bad⟩⟩]⟩
        .empty (Register.as_VMReg ⟨5⟩) 0 0
      = .ok ((MacroAssembler.empty.block_comment T_INT).emit
          (addw ⟨11⟩ ⟨10⟩ (riscv64 true).zr)) ∧
    (exec (riscv64 true) ⟨fun _ => 0xFFFFFFFF, fun _ => 0, fun _ => 0⟩
        (addw ⟨11⟩ ⟨10⟩ (riscv64 true).zr)).get_x (riscv64 true) ⟨11⟩
      = sign_extend32 ((⟨fun _ => 0xFFFFFFFF, fun _ => 0, fun _ => 0⟩ : Machine).get_x
          (riscv64 true) ⟨10⟩) :=
  have h := subword_register_move (riscv64 true) T_INT ⟨10⟩ ⟨11⟩ VMReg.Bad VMReg.Bad .empty
    (Register.as_VMReg ⟨5⟩) 0 0 (by decide) (by decide) (by decide) (by decide)
  ⟨h.1, h.2 ⟨fun _ => 0xFFFFFFFF, fun _ => 0, fun _ => 0⟩ (by decide)⟩

/-! ## Round trips -/

section round_trip

variable (P : Platform)

theorem get_x_mod_word (s : Machine) (r : Register) : s.get_x P r % 2 ^ 64 = s.get_x P r :=
  Nat.mod_eq_of_lt (get_x_lt P s r)

theorem get_x_mod_bytes8 (s : Machine) (r : Register) : s.get_x P r % 256 ^ 8 = s.get_x P r :=
  Nat.mod_eq_of_lt (by have := get_x_lt P s r; norm_num at this ⊢; exact this)

end round_trip

section round_trip_float

variable (P : Platform)

theorem is_stack_not_FloatRegister (v : VMReg) (h : v.is_stack P = true) :
    v.is_FloatRegister P = false := by
  cases hf : v.is_FloatRegister P with
  | false => rfl
  | true => rw [is_FloatRegister_not_stack P v hf] at h; exact absurd h (by decide)

theorem is_stack_not_Register (v : VMReg) (h : v.is_stack P = true) :
    v.is_Register P = false := by
  cases hf : v.is_Register P with
  | false => rfl
  | true => rw [is_Register_not_stack P v hf] at h; exact absurd h (by decide)

theorem get_f_lt (s : Machine) (r : FloatRegister) : s.get_f r < 2 ^ 64 :=
  Nat.mod_lt _ (by decide)

theorem get_f_mod_word (s : Machine) (r : FloatRegister) : s.get_f r % 2 ^ 64 = s.get_f r :=
  Nat.mod_eq_of_lt (get_f_lt s r)

theorem unbox_box_single (w : Nat) : unbox_single (box_single w) = w % 2 ^ 32 := by
  have h : is_nan_boxed (box_single w) = true := by
    simp only [is_nan_boxed, box_single, beq_iff_eq]
    omega
  rw [unbox_single, if_pos h]
  simp only [box_single]
  omega

theorem box_unbox_box (x : Nat) :
    box_single (unbox_single (box_single x)) = box_single x := by
  rw [unbox_box_single]
  simp only [box_single]
  omega

theorem single_phys_reg_is_reg (p : VMRegPair) (h : p.is_single_phys_reg P = true) :
    p.first.is_reg P = true := by
  simp only [VMRegPair.is_single_phys_reg, Bool.and_eq_true] at h
  exact h.1

end round_trip_float

theorem pd_generate_single (P : Platform) (m : Move) (masm : MacroAssembler) (tmp : VMReg)
    (in_stk_bias out_stk_bias : Int) :
    ArgumentShuffle.pd_generate P ⟨[m]⟩ masm tmp in_stk_bias out_stk_bias
      = pd_generate_move P masm m := by
  simp only [ArgumentShuffle.pd_generate, pd_generate_loop]
  cases pd_generate_move P masm m <;> rfl

/-- C11: every long-typed move over integer registers and stack slots is
emitted at full width, without an extension step: stack to stack is the
64-bit load `ld` from the frame-pointer relative source offset into `t0`
followed by the 64-bit store `sd` of `t0` to the stack-pointer relative
destination offset; stack to register is exactly one `ld` into the destination
register; register to stack is exactly one `sd`; two distinct registers are
exactly one `mv`. -/
theorem long_move_full_width (P : Platform) (i j : Nat) (r1 r2 : Register)
    (src_second dst_second : VMReg) (masm : MacroAssembler) (tmp : VMReg)
    (in_stk_bias out_stk_bias : Int)
    (hr1 : r1.is_valid P) (hr2 : r2.is_valid P) (hne : r1 ≠ r2) :
    ArgumentShuffle.pd_generate P
        ⟨[⟨T_LONG, ⟨VMReg.stack2reg P i, src_second⟩, ⟨VMReg.stack2reg P j, dst_second⟩⟩]⟩
        masm tmp in_stk_bias out_stk_bias
      = .ok (((masm.block_comment T_LONG).emit
          (ld P.t0 ⟨P.fp, reg2offset_in P (VMReg.stack2reg P i)⟩)).emit
          (sd P.t0 ⟨P.sp, reg2offset_out P (VMReg.stack2reg P j)⟩)) ∧
    ArgumentShuffle.pd_generate P
        ⟨[⟨T_LONG, ⟨VMReg.stack2reg P i, src_second⟩, ⟨r2.as_VMReg, dst_second⟩⟩]⟩
        masm tmp in_stk_bias out_stk_bias
      = .ok ((masm.block_comment T_LONG).emit
          (ld r2 ⟨P.fp, reg2offset_in P (VMReg.stack2reg P i)⟩)) ∧
    ArgumentShuffle.pd_generate P
        ⟨[⟨T_LONG, ⟨r1.as_VMReg, src_second⟩, ⟨VMReg.stack2reg P j, dst_second⟩⟩]⟩
        masm tmp in_stk_bias out_stk_bias
      = .ok ((masm.block_comment T_LONG).emit
          (sd r1 ⟨P.sp, reg2offset_out P (VMReg.stack2reg P j)⟩)) ∧
    ArgumentShuffle.pd_generate P
        ⟨[⟨T_LONG, ⟨r1.as_VMReg, src_second⟩, ⟨r2.as_VMReg, dst_second⟩⟩]⟩
        masm tmp in_stk_bias out_stk_bias
      = .ok ((masm.block_comment T_LONG).emit (mv r2 r1)) ∧
    (ld r2 ⟨P.fp, reg2offset_in P (VMReg.stack2reg P i)⟩).access_width = some 64 ∧
    (sd r1 ⟨P.sp, reg2offset_out P (VMReg.stack2reg P j)⟩).access_width = some 64 := by
  have h1 := gpr_is_stack P r1 hr1
  have h2 := gpr_is_stack P r2 hr2
  have h3 : r2.as_VMReg ≠ r1.as_VMReg := fun h => hne (gpr_inj P r2 r1 hr2 hr1 h).symm
  have h4 := stack_is_stack P i
  have h5 := stack_is_stack P j
  refine ⟨?_, ?_, ?_, ?_, rfl, rfl⟩ <;>
    simp [pd_generate_single, pd_generate_move, long_move, h1, h2, h3, h4, h5,
      gpr_as_Register P r1 hr1, gpr_as_Register P r2 hr2]

theorem long_move_full_width_witness :
    ArgumentShuffle.pd_generate (riscv64 true)
        ⟨[⟨T_LONG, ⟨VMReg.stack2reg (riscv64 true) (4 : Nat), VMReg.Bad⟩,
            ⟨Register.as_VMReg ⟨12⟩, VMReg.Bad⟩⟩]⟩ .empty (Register.as_VMReg ⟨5⟩) 0 0
      = .ok ((MacroAssembler.empty.block_comment T_LONG).emit
          (ld ⟨12⟩ ⟨(riscv64 true).fp,
            reg2offset_in (riscv64 true) (VMReg.stack2reg (riscv64 true) (4 : Nat))⟩)) ∧
    reg2offset_in (riscv64 true) (VMReg.stack2reg (riscv64 true) (4 : Nat)) = 16 :=
  ⟨(long_move_full_width (riscv64 true) 4 6 ⟨10⟩ ⟨12⟩ VMReg.Bad VMReg.Bad .empty
    (Register.as_VMReg ⟨5⟩) 0 0 (by decide) (by decide) (by decide)).2.1, by decide⟩

/-! ## The storage classifier -/

/-- C12, the claim as stated fails: the negative code `-1`, which is no native
kind and no storage class, is returned by `get_regtype` as a `RegType`; the VM
is not stopped, and `vmstorage_to_vmreg` answers with the invalid location. -/
theorem get_regtype_negative_code_returns :
    get_regtype sample_codes (-1) = .ok ⟨-1⟩ ∧
    vmstorage_to_vmreg (riscv64 false) sample_codes (-1) 3 = .ok VMReg.Bad :=
  ⟨rfl, rfl⟩

/-- C12 as amended: `get_regtype` stops the VM exactly on the codes above
`STACK` that are none of the six storage classes. Every code at or below
`STACK`, negative ones included, is returned as it is, and
`vmstorage_to_vmreg` maps those that are none of `INTEGER`, `FLOAT`, `STACK`
to the invalid location. -/
theorem get_regtype_aborts_above_boundary (P : Platform) (C : StorageCodes)
    (code index : Int) :
    (get_regtype C code = .error .ShouldNotReachHere ↔
      C.STACK < code ∧ code ≠ C.INTEGER_8 ∧ code ≠ C.INTEGER_16 ∧ code ≠ C.INTEGER_32 ∧
        code ≠ C.INTEGER_64 ∧ code ≠ C.FLOAT_32 ∧ code ≠ C.FLOAT_64) ∧
    (code ≤ C.STACK → get_regtype C code = .ok ⟨code⟩) ∧
    (code ≤ C.STACK → code ≠ C.INTEGER → code ≠ C.FLOAT → code ≠ C.STACK →
      vmstorage_to_vmreg P C code index = .ok VMReg.Bad) := by
  refine ⟨?_, ?_, ?_⟩
  · unfold get_regtype
    split_ifs with h1 h2 h3
    · simp; omega
    · simp; omega
    · simp; omega
    · simp only [true_iff]
      push_neg at h2 h3
      exact ⟨by omega, h2.1, h2.2.1, h2.2.2.1, h2.2.2.2, h3.1, h3.2⟩
  · intro h
    simp [get_regtype, h]
  · intro h h1 h2 h3
    simp [vmstorage_to_vmreg, get_regtype, h, h1, h2, h3]

theorem get_regtype_aborts_above_boundary_witness :
    get_regtype sample_codes 9 = .error .ShouldNotReachHere :=
  (get_regtype_aborts_above_boundary (riscv64 false) sample_codes 9 0).1.2 (by decide)

theorem to_int_of_range (x : Int) (h0 : -2 ^ 31 ≤ x) (h1 : x < 2 ^ 31) : to_int x = x := by
  unfold to_int
  omega

/-- C13, the claim as stated fails for indices out of range: with `INTEGER`
the index 40 yields the location of value 80, a slot of the float register
`f8` and no integer register; with `INTEGER_64` the index `-1` yields the
invalid location; with `STACK` the index `-1` yields a location that is no
stack slot, and the index `2^30`, whose double does not fit an `int`, yields
the location `2^31` below the first stack slot. -/
theorem vmstorage_to_vmreg_index_out_of_range :
    vmstorage_to_vmreg (riscv64 false) sample_codes sample_codes.INTEGER 40 = .ok ⟨80⟩ ∧
    (⟨80⟩ : VMReg).is_Register (riscv64 false) = false ∧
    (⟨80⟩ : VMReg).is_FloatRegister (riscv64 false) = true ∧
    (⟨80⟩ : VMReg).as_FloatRegister (riscv64 false) = ⟨8⟩ ∧
    vmstorage_to_vmreg (riscv64 false) sample_codes sample_codes.INTEGER_64 (-1)
      = .ok VMReg.Bad ∧
    vmstorage_to_vmreg (riscv64 false) sample_codes sample_codes.STACK (-1) = .ok ⟨254⟩ ∧
    (⟨254⟩ : VMReg).is_stack (riscv64 false) = false ∧
    vmstorage_to_vmreg (riscv64 false) sample_codes sample_codes.STACK 1073741824
      = .ok ⟨256 - 2147483648⟩ ∧
    (⟨256 - 2147483648⟩ : VMReg).is_stack (riscv64 false) = false :=
  ⟨rfl, by decide, by decide, by decide, rfl, rfl, by decide, rfl, by decide⟩

/-- C13 as amended: when `index` numbers an integer register,
`vmstorage_to_vmreg(type, index)` is that register for `type` `INTEGER` and
for each integer storage class; when `index` numbers a float register, it is
that register for `type` `FLOAT` and for each float storage class; when
`0 ≤ index < 2^30`, it is the stack slot numbered `index * 2` for `type`
`STACK`. For every index, a storage class gives what its native kind gives:
the width does not affect the result. -/
theorem vmstorage_to_vmreg_by_kind (P : Platform) (C : StorageCodes) (index : Int) :
    ((as_Register index).is_valid P →
      (∀ type, type = C.INTEGER ∨ type = C.INTEGER_8 ∨ type = C.INTEGER_16 ∨
          type = C.INTEGER_32 ∨ type = C.INTEGER_64 →
        vmstorage_to_vmreg P C type index = .ok (as_Register index).as_VMReg) ∧
      (as_Register index).as_VMReg.is_Register P = true ∧
      (as_Register index).as_VMReg.as_Register = as_Register index) ∧
    ((as_FloatRegister index).is_valid P →
      (∀ type, type = C.FLOAT ∨ type = C.FLOAT_32 ∨ type = C.FLOAT_64 →
        vmstorage_to_vmreg P C type index = .ok ((as_FloatRegister index).as_VMReg P)) ∧
      ((as_FloatRegister index).as_VMReg P).is_FloatRegister P = true ∧
      ((as_FloatRegister index).as_VMReg P).as_FloatRegister P = as_FloatRegister index) ∧
    (0 ≤ index → index < 2 ^ 30 →
      vmstorage_to_vmreg P C C.STACK index = .ok (VMReg.stack2reg P (index * 2)) ∧
      (VMReg.stack2reg P (index * 2)).is_stack P = true ∧
      (VMReg.stack2reg P (index * 2)).reg2stack P = index * 2) ∧
    (∀ type, type = C.INTEGER_8 ∨ type = C.INTEGER_16 ∨ type = C.INTEGER_32 ∨
        type = C.INTEGER_64 →
      vmstorage_to_vmreg P C type index = vmstorage_to_vmreg P C C.INTEGER index) ∧
    (∀ type, type = C.FLOAT_32 ∨ type = C.FLOAT_64 →
      vmstorage_to_vmreg P C type index = vmstorage_to_vmreg P C C.FLOAT index) := by
  obtain ⟨hb1, hb2⟩ := C.kinds_below
  obtain ⟨hd1, hd2, hd3⟩ := C.kinds_distinct
  obtain ⟨ha1, ha2, ha3, ha4, ha5, ha6⟩ := C.classes_above
  have hint : ∀ type, type = C.INTEGER ∨ type = C.INTEGER_8 ∨ type = C.INTEGER_16 ∨
      type = C.INTEGER_32 ∨ type = C.INTEGER_64 →
      vmstorage_to_vmreg P C type index = .ok (as_Register index).as_VMReg := by
    intro type h
    rcases h with rfl | h
    · simp [vmstorage_to_vmreg, get_regtype, hb1]
    · have hgt : ¬ type ≤ C.STACK := by rcases h with rfl | rfl | rfl | rfl <;> omega
      simp [vmstorage_to_vmreg, get_regtype, hgt, h]
  have hfloat : ∀ type, type = C.FLOAT ∨ type = C.FLOAT_32 ∨ type = C.FLOAT_64 →
      vmstorage_to_vmreg P C type index = .ok ((as_FloatRegister index).as_VMReg P) := by
    intro type h
    rcases h with rfl | h
    · simp [vmstorage_to_vmreg, get_regtype, hb2, Ne.symm hd1]
    · have hgt : ¬ type ≤ C.STACK := by rcases h with rfl | rfl <;> omega
      have hni : ¬ (type = C.INTEGER_8 ∨ type = C.INTEGER_16 ∨ type = C.INTEGER_32 ∨
          type = C.INTEGER_64) := by
        intro hi
        have := C.classes_distinct type hi
        rcases h with rfl | rfl
        · exact this.1 rfl
        · exact this.2 rfl
      simp [vmstorage_to_vmreg, get_regtype, hgt, hni, h, Ne.symm hd1]
  refine ⟨?_, ?_, ?_, ?_, ?_⟩
  · intro h
    exact ⟨hint, gpr_is_Register P _ h, gpr_as_Register P _ h⟩
  · intro h
    exact ⟨hfloat, fpr_is_FloatRegister P _ h, fpr_as_FloatRegister P _⟩
  · intro h0 h1
    have e : to_int (index * 2) = index * 2 := to_int_of_range _ (by omega) (by omega)
    refine ⟨by simp [vmstorage_to_vmreg, get_regtype, Ne.symm hd2, Ne.symm hd3, e], ?_, ?_⟩
    · simp only [VMReg.is_stack, VMReg.stack2reg, decide_eq_true_eq]
      omega
    · simp only [VMReg.stack2reg, VMReg.reg2stack]
      omega
  · intro type h
    rw [hint type (Or.inr h), hint C.INTEGER (Or.inl rfl)]
  · intro type h
    rw [hfloat type (Or.inr h), hfloat C.FLOAT (Or.inl rfl)]

theorem vmstorage_to_vmreg_by_kind_witness :
    (∀ type, type = sample_codes.INTEGER ∨ type = sample_codes.INTEGER_8 ∨
        type = sample_codes.INTEGER_16 ∨ type = sample_codes.INTEGER_32 ∨
        type = sample_codes.INTEGER_64 →
      vmstorage_to_vmreg (riscv64 false) sample_codes type 10
        = .ok (as_Register 10).as_VMReg) ∧
    vmstorage_to_vmreg (riscv64 false) sample_codes sample_codes.FLOAT_32 10
      = .ok ((as_FloatRegister 10).as_VMReg (riscv64 false)) ∧
    vmstorage_to_vmreg (riscv64 false) sample_codes sample_codes.STACK 10
      = .ok (VMReg.stack2reg (riscv64 false) (10 * 2)) :=
  have h := vmstorage_to_vmreg_by_kind (riscv64 false) sample_codes 10
  ⟨(h.1 (by decide)).1, (h.2.1 (by decide)).1 _ (Or.inr (Or.inl rfl)),
    (h.2.2.1 (by decide) (by decide)).1⟩

/-- C14, the claim as stated fails: the stack locations of the indices
`2^28 - 1` and `2^28` get the offsets `2^31 - 8` and `-2^31`: the second, the
`int` that `reg2offset_in` returns for `8 * 2^28`, is below the first. -/
theorem stack_offset_not_monotone_at_int_range :
    vmstorage_to_vmreg (riscv64 false) sample_codes sample_codes.STACK 268435455
      = .ok (VMReg.stack2reg (riscv64 false) 536870910) ∧
    reg2offset_in (riscv64 false) (VMReg.stack2reg (riscv64 false) 536870910) = 2147483640 ∧
    vmstorage_to_vmreg (riscv64 false) sample_codes sample_codes.STACK 268435456
      = .ok (VMReg.stack2reg (riscv64 false) 536870912) ∧
    reg2offset_in (riscv64 false) (VMReg.stack2reg (riscv64 false) 536870912)
      = -2147483648 :=
  ⟨rfl, by decide, rfl, by decide⟩

/-- C14 as amended: for all indices `0 ≤ i < j < 2^28`, the offsets that
`reg2offset_in` gives the stack locations `vmstorage_to_vmreg(STACK, i)` and
`vmstorage_to_vmreg(STACK, j)` are `8 * i` and `8 * j`; the first is below
the second and the two 8-byte ranges are disjoint. -/
theorem stack_offsets_monotone (P : Platform) (C : StorageCodes) (i j : Int)
    (h0 : 0 ≤ i) (hij : i < j) (hj : j < 2 ^ 28) :
    ∃ vi vj, vmstorage_to_vmreg P C C.STACK i = .ok vi ∧
      vmstorage_to_vmreg P C C.STACK j = .ok vj ∧
      reg2offset_in P vi = 8 * i ∧ reg2offset_in P vj = 8 * j ∧
      reg2offset_in P vi < reg2offset_in P vj ∧
      reg2offset_in P vi + 8 ≤ reg2offset_in P vj := by
  obtain ⟨hd1, hd2, hd3⟩ := C.kinds_distinct
  have e : ∀ k : Int, 0 ≤ k → k < 2 ^ 28 →
      vmstorage_to_vmreg P C C.STACK k = .ok (VMReg.stack2reg P (k * 2)) := by
    intro k hk0 hk1
    have ek : to_int (k * 2) = k * 2 := to_int_of_range _ (by omega) (by omega)
    simp [vmstorage_to_vmreg, get_regtype, Ne.symm hd2, Ne.symm hd3, ek]
  have o : ∀ k : Int, 0 ≤ k → k < 2 ^ 28 →
      reg2offset_in P (VMReg.stack2reg P (k * 2)) = 8 * k := by
    intro k hk0 hk1
    simp only [reg2offset_in, VMReg.reg2stack, VMReg.stack2reg, stack_slot_size]
    rw [to_int_of_range] <;> omega
  refine ⟨_, _, e i h0 (by omega), e j (by omega) hj, o i h0 (by omega), o j (by omega) hj,
    ?_, ?_⟩
  · rw [o i h0 (by omega), o j (by omega) hj]
    omega
  · rw [o i h0 (by omega), o j (by omega) hj]
    omega

theorem stack_offsets_monotone_witness :
    ∃ vi vj, vmstorage_to_vmreg (riscv64 false) sample_codes sample_codes.STACK 2 = .ok vi ∧
      vmstorage_to_vmreg (riscv64 false) sample_codes sample_codes.STACK 3 = .ok vj ∧
      reg2offset_in (riscv64 false) vi = 8 * 2 ∧ reg2offset_in (riscv64 false) vj = 8 * 3 ∧
      reg2offset_in (riscv64 false) vi < reg2offset_in (riscv64 false) vj ∧
      reg2offset_in (riscv64 false) vi + 8 ≤ reg2offset_in (riscv64 false) vj :=
  stack_offsets_monotone (riscv64 false) sample_codes 2 3 (by decide) (by decide) (by decide)

/-! ## The volatility query -/

/-- C15: for every descriptor, an integer register is volatile exactly when it
is among the integer argument registers or the additional integer volatile
registers, and a float register exactly when it is among the float argument
registers or the additional float volatile registers. Two descriptors that
agree on these four lists give the same answers, whatever their return
registers, target-address register and return-buffer register. -/
theorem is_volatile_reg_iff (abi : ABIDescriptor) (r : Register) (f : FloatRegister) :
    (abi.is_volatile_reg r = true ↔
      r ∈ abi._integer_argument_registers ∨
        r ∈ abi._integer_additional_volatile_registers) ∧
    (abi.is_volatile_reg_float f = true ↔
      f ∈ abi._float_argument_registers ∨ f ∈ abi._float_additional_volatile_registers) ∧
    ∀ other : ABIDescriptor,
      other._integer_argument_registers = abi._integer_argument_registers →
      other._integer_additional_volatile_registers
        = abi._integer_additional_volatile_registers →
      other._float_argument_registers = abi._float_argument_registers →
      other._float_additional_volatile_registers = abi._float_additional_volatile_registers →
      other.is_volatile_reg r = abi.is_volatile_reg r ∧
      other.is_volatile_reg_float f = abi.is_volatile_reg_float f := by
  refine ⟨?_, ?_, ?_⟩
  · simp [ABIDescriptor.is_volatile_reg]
  · simp [ABIDescriptor.is_volatile_reg_float]
  · intro other h1 h2 h3 h4
    simp [ABIDescriptor.is_volatile_reg, ABIDescriptor.is_volatile_reg_float, h1, h2, h3, h4]

theorem is_volatile_reg_iff_witness :
    (⟨[⟨10⟩, ⟨11⟩], [⟨10⟩], [⟨10⟩], [⟨10⟩], [⟨5⟩], [⟨0⟩], 16, 0, ⟨6⟩, ⟨7⟩⟩ :
        ABIDescriptor).is_volatile_reg ⟨5⟩ = true ∧
    (⟨[⟨10⟩, ⟨11⟩], [⟨10⟩], [⟨10⟩], [⟨10⟩], [⟨5⟩], [⟨0⟩], 16, 0, ⟨6⟩, ⟨7⟩⟩ :
        ABIDescriptor).is_volatile_reg ⟨6⟩ = false :=
  ⟨(is_volatile_reg_iff ⟨[⟨10⟩, ⟨11⟩], [⟨10⟩], [⟨10⟩], [⟨10⟩], [⟨5⟩], [⟨0⟩], 16, 0, ⟨6⟩, ⟨7⟩⟩
      ⟨5⟩ ⟨0⟩).1.2 (by decide), by decide⟩

/-! ## The register spiller -/

theorem bad_is_no_register (P : Platform) :
    VMReg.Bad.is_Register P = false ∧ VMReg.Bad.is_FloatRegister P = false := by
  simp only [VMReg.Bad, VMReg.is_Register, VMReg.is_FloatRegister, Platform.max_gpr,
    max_slots_per_register, decide_eq_false_iff_not]
  constructor <;> omega

theorem store_then_load_restores_x (P : Platform) (s : Machine) (r : Register)
    (adr : Address) :
    (run P s [sd r adr, ld r adr]).get_x P r = s.get_x P r := by
  by_cases hz : r = P.zr
  · subst hz
    simp [get_x_zr]
  · simp only [run, List.foldl, exec, ea_store, get_x_set_x_same P _ _ _ hz,
      load_store _ _ _ _ _ (le_refl 8) (le_refl 8), get_x_mod_bytes8, get_x_mod_word]

theorem get_f_mod_bytes8 (s : Machine) (r : FloatRegister) : s.get_f r % 256 ^ 8 = s.get_f r :=
  Nat.mod_eq_of_lt (by have := get_f_lt s r; norm_num at this ⊢; exact this)

theorem store_then_load_restores_f (P : Platform) (s : Machine) (f : FloatRegister)
    (adr : Address) :
    (run P s [fsd f adr, fld f adr]).get_f f = s.get_f f := by
  simp only [run, List.foldl, exec, ea_store, get_f_set_f_same,
    load_store _ _ _ _ _ (le_refl 8) (le_refl 8), get_f_mod_bytes8, get_f_mod_word]

/-- C16: for every offset, `pd_store_reg` and `pd_load_reg` emit nothing for a
stack slot and for the invalid location; for an integer register `r` they emit
exactly `sd r` and `ld r`, for a float register `f` exactly `fsd f` and
`fld f`, each 64 bits wide at `sp + offset`. The load mirrors the store: same
register, same address, same width, and running the store and then the load
leaves the register with the value it had. -/
theorem spill_and_fill_mirror (P : Platform) (masm : MacroAssembler) (offset : Int)
    (idx : Nat) (r : Register) (f : FloatRegister) (hr : r.is_valid P) (hf : f.is_valid P) :
    (RegSpiller.pd_store_reg P masm offset (VMReg.stack2reg P idx) = masm ∧
      RegSpiller.pd_load_reg P masm offset (VMReg.stack2reg P idx) = masm) ∧
    (RegSpiller.pd_store_reg P masm offset VMReg.Bad = masm ∧
      RegSpiller.pd_load_reg P masm offset VMReg.Bad = masm) ∧
    (RegSpiller.pd_store_reg P masm offset r.as_VMReg = masm.emit (sd r ⟨P.sp, offset⟩) ∧
      RegSpiller.pd_load_reg P masm offset r.as_VMReg = masm.emit (ld r ⟨P.sp, offset⟩)) ∧
    (RegSpiller.pd_store_reg P masm offset (f.as_VMReg P)
        = masm.emit (fsd f ⟨P.sp, offset⟩) ∧
      RegSpiller.pd_load_reg P masm offset (f.as_VMReg P)
        = masm.emit (fld f ⟨P.sp, offset⟩)) ∧
    ((sd r ⟨P.sp, offset⟩).access_width = some 64 ∧
      (ld r ⟨P.sp, offset⟩).access_width = some 64 ∧
      (fsd f ⟨P.sp, offset⟩).access_width = some 64 ∧
      (fld f ⟨P.sp, offset⟩).access_width = some 64) ∧
    ((ld r ⟨P.sp, offset⟩).load_adr = (sd r ⟨P.sp, offset⟩).store_adr ∧
      (fld f ⟨P.sp, offset⟩).load_adr = (fsd f ⟨P.sp, offset⟩).store_adr) ∧
    ∀ s : Machine,
      (run P s [sd r ⟨P.sp, offset⟩, ld r ⟨P.sp, offset⟩]).get_x P r = s.get_x P r ∧
      (run P s [fsd f ⟨P.sp, offset⟩, fld f ⟨P.sp, offset⟩]).get_f f = s.get_f f := by
  obtain ⟨b1, b2⟩ := bad_is_no_register P
  have s1 := stack_is_Register P idx
  have s2 := stack_is_FloatRegister P idx
  have r1 := gpr_is_Register P r hr
  have f1 := fpr_is_Register P f hf
  have f2 := fpr_is_FloatRegister P f hf
  refine ⟨?_, ?_, ?_, ?_, ⟨rfl, rfl, rfl, rfl⟩, ⟨rfl, rfl⟩, ?_⟩
  · simp [RegSpiller.pd_store_reg, RegSpiller.pd_load_reg, s1, s2]
  · simp [RegSpiller.pd_store_reg, RegSpiller.pd_load_reg, b1, b2]
  · simp [RegSpiller.pd_store_reg, RegSpiller.pd_load_reg, r1, gpr_as_Register P r hr]
  · simp [RegSpiller.pd_store_reg, RegSpiller.pd_load_reg, f1, f2, fpr_as_FloatRegister]
  · intro s
    exact ⟨store_then_load_restores_x P s r _, store_then_load_restores_f P s f _⟩

theorem spill_and_fill_mirror_witness :
    RegSpiller.pd_store_reg (riscv64 false) .empty 24 (Register.as_VMReg ⟨10⟩)
      = MacroAssembler.empty.emit (sd ⟨10⟩ ⟨(riscv64 false).sp, 24⟩) ∧
    RegSpiller.pd_load_reg (riscv64 false) .empty 24 (Register.as_VMReg ⟨10⟩)
      = MacroAssembler.empty.emit (ld ⟨10⟩ ⟨(riscv64 false).sp, 24⟩) :=
  (spill_and_fill_mirror (riscv64 false) .empty 24 3 ⟨10⟩ ⟨10⟩ (by decide) (by decide)).2.2.1

/-- C17: `pd_reg_size` is 8 for an integer register and for a float register
and 0 for a stack slot and for the invalid location; for every location it is
non-zero exactly when `pd_store_reg` emits an instruction for the location. -/
theorem pd_reg_size_by_kind (P : Platform) (loc : VMReg) (masm : MacroAssembler)
    (offset : Int) :
    (loc.is_physical_register P → RegSpiller.pd_reg_size P loc = 8) ∧
    (loc.is_stack P = true ∨ loc = VMReg.Bad → RegSpiller.pd_reg_size P loc = 0) ∧
    (RegSpiller.pd_reg_size P loc ≠ 0 ↔
      ∃ i, RegSpiller.pd_store_reg P masm offset loc = masm.emit i) ∧
    (RegSpiller.pd_reg_size P loc = 0 ↔ RegSpiller.pd_store_reg P masm offset loc = masm) := by
  have hemit : ∀ i, masm.emit i ≠ masm := by
    intro i h
    have := congrArg (fun m => m.code.length) h
    simp [MacroAssembler.emit] at this
  refine ⟨?_, ?_, ?_, ?_⟩
  · rintro (⟨r, hr, rfl⟩ | ⟨f, hf, rfl⟩)
    · simp [RegSpiller.pd_reg_size, gpr_is_Register P r hr]
    · simp [RegSpiller.pd_reg_size, fpr_is_FloatRegister P f hf]
  · rintro (h | rfl)
    · simp [RegSpiller.pd_reg_size, is_stack_not_Register P loc h,
        is_stack_not_FloatRegister P loc h]
    · simp [RegSpiller.pd_reg_size, (bad_is_no_register P).1, (bad_is_no_register P).2]
  · unfold RegSpiller.pd_reg_size RegSpiller.pd_store_reg
    split_ifs
    · simp
    · simp
    · simp only [ne_eq, not_true_eq_false, false_iff, not_exists]
      exact fun i h => hemit i h.symm
  · unfold RegSpiller.pd_reg_size RegSpiller.pd_store_reg
    split_ifs
    · simp [hemit]
    · simp [hemit]
    · simp

theorem pd_reg_size_by_kind_witness :
    RegSpiller.pd_reg_size (riscv64 false) (FloatRegister.as_VMReg (riscv64 false) ⟨10⟩) = 8 ∧
    RegSpiller.pd_reg_size (riscv64 false) (VMReg.stack2reg (riscv64 false) 4) = 0 :=
  have h1 := pd_reg_size_by_kind (riscv64 false) (FloatRegister.as_VMReg (riscv64 false) ⟨10⟩)
    .empty 0
  have h2 := pd_reg_size_by_kind (riscv64 false) (VMReg.stack2reg (riscv64 false) 4) .empty 0
  ⟨h1.1 (Or.inr ⟨⟨10⟩, by decide, rfl⟩), h2.2.1 (Or.inl (by decide))⟩

/-! ## The shuffle as a list homomorphism -/

theorem long_move_independent (P : Platform) (src dst : VMRegPair) :
    assembler_independent (fun masm => long_move P masm src dst) := by
  intro masm
  simp only [long_move]
  split_ifs <;>
    simp [Outcome.emitted, Outcome.masm, Outcome.fault, MacroAssembler.emit]

theorem move32_64_independent (P : Platform) (src dst : VMRegPair) :
    assembler_independent (fun masm => move32_64 P masm src dst) := by
  intro masm
  simp only [move32_64]
  split_ifs <;>
    simp [Outcome.emitted, Outcome.masm, Outcome.fault, MacroAssembler.emit]

theorem double_move_independent (P : Platform) (src dst : VMRegPair) :
    assembler_independent (fun masm => double_move P masm src dst) := by
  intro masm
  simp only [double_move]
  split_ifs <;>
    simp [Outcome.emitted, Outcome.masm, Outcome.fault, MacroAssembler.emit]

theorem float_move_independent (P : Platform) (src dst : VMRegPair) :
    assembler_independent (fun masm => float_move P masm src dst) := by
  intro masm
  simp only [float_move]
  split_ifs <;>
    simp [Outcome.emitted, Outcome.masm, Outcome.fault, MacroAssembler.emit]

theorem move_float_to_integer_or_stack_independent (P : Platform) (src dst : VMRegPair) :
    assembler_independent (fun masm => move_float_to_integer_or_stack P masm src dst) := by
  intro masm
  simp only [move_float_to_integer_or_stack]
  split_ifs <;>
    simp [Outcome.emitted, Outcome.masm, Outcome.fault, MacroAssembler.emit]

theorem move_double_to_integer_or_stack_independent (P : Platform) (src dst : VMRegPair) :
    assembler_independent (fun masm => move_double_to_integer_or_stack P masm src dst) := by
  intro masm
  simp only [move_double_to_integer_or_stack]
  split_ifs <;>
    simp [Outcome.emitted, Outcome.masm, Outcome.fault, MacroAssembler.emit]

theorem independent_after_block_comment (generate : MacroAssembler → Outcome)
    (bt : BasicType) (h : assembler_independent generate) :
    assembler_independent (fun masm => generate (masm.block_comment bt)) := by
  intro masm
  have h1 := h (masm.block_comment bt)
  refine ⟨h1.1, fun other => ?_⟩
  have h2 := h1.2 (other.block_comment bt)
  exact ⟨h2.1, h2.2⟩

theorem pd_generate_move_independent (P : Platform) (m : Move) :
    assembler_independent (fun masm => pd_generate_move P masm m) := by
  obtain ⟨bt, src, dst⟩ := m
  cases bt <;> simp only [pd_generate_move]
  case T_BOOLEAN | T_BYTE | T_SHORT | T_CHAR | T_INT =>
    exact independent_after_block_comment _ _ (move32_64_independent P src dst)
  case T_LONG => exact independent_after_block_comment _ _ (long_move_independent P src dst)
  case T_FLOAT =>
    split_ifs
    · exact independent_after_block_comment _ _
        (move_float_to_integer_or_stack_independent P src dst)
    · exact independent_after_block_comment _ _ (float_move_independent P src dst)
  case T_DOUBLE =>
    split_ifs
    · exact independent_after_block_comment _ _
        (move_double_to_integer_or_stack_independent P src dst)
    · exact independent_after_block_comment _ _ (double_move_independent P src dst)
  all_goals
    intro masm
    simp [Outcome.emitted, Outcome.masm, Outcome.fault, MacroAssembler.block_comment]

theorem masm_ok (m : MacroAssembler) : (Outcome.ok m).masm = m := rfl

theorem masm_aborted (fault : Fault) (m : MacroAssembler) :
    (Outcome.aborted fault m).masm = m := rfl

theorem fault_ok (m : MacroAssembler) : (Outcome.ok m).fault = none := rfl

theorem fault_aborted (fault : Fault) (m : MacroAssembler) :
    (Outcome.aborted fault m).fault = some fault := rfl

theorem independent_iff (generate : MacroAssembler → Outcome) :
    assembler_independent generate ↔
      ∃ fault new, ∀ masm, (generate masm).fault = fault ∧
        (generate masm).masm.code = masm.code ++ new := by
  constructor
  · intro h
    refine ⟨(generate .empty).fault, (generate .empty).emitted .empty, fun masm => ?_⟩
    obtain ⟨h1, h2⟩ := h masm
    obtain ⟨h3, h4⟩ := h2 .empty
    exact ⟨h3, h4 ▸ h1⟩
  · rintro ⟨fault, new, h⟩ masm
    have e : ∀ m, (generate m).emitted m = new := by
      intro m
      simp [Outcome.emitted, (h m).2]
    refine ⟨by rw [e, (h masm).2], fun other => ⟨?_, ?_⟩⟩
    · rw [(h masm).1, (h other).1]
    · rw [e, e]

theorem pd_generate_loop_independent (P : Platform) (ms : List Move) :
    assembler_independent (pd_generate_loop P ms) := by
  rw [independent_iff]
  induction ms with
  | nil => exact ⟨none, [], fun masm => by simp [pd_generate_loop, fault_ok, masm_ok]⟩
  | cons m rest ih =>
    obtain ⟨f1, n1, h1⟩ := (independent_iff _).1 (pd_generate_move_independent P m)
    obtain ⟨f2, n2, h2⟩ := ih
    cases f1 with
    | some f =>
      refine ⟨some f, n1, fun masm => ?_⟩
      obtain ⟨a1, a2⟩ := h1 masm
      simp only [pd_generate_loop]
      cases hg : pd_generate_move P masm m with
      | ok masm1 => simp [hg, fault_ok] at a1
      | aborted fault masm1 =>
        simp only [hg, fault_aborted, masm_aborted] at a1 a2 ⊢
        exact ⟨a1, a2⟩
    | none =>
      refine ⟨f2, n1 ++ n2, fun masm => ?_⟩
      obtain ⟨a1, a2⟩ := h1 masm
      simp only [pd_generate_loop]
      cases hg : pd_generate_move P masm m with
      | aborted fault masm1 => simp [hg, fault_aborted] at a1
      | ok masm1 =>
        simp only [hg, masm_ok] at a2 ⊢
        obtain ⟨b1, b2⟩ := h2 masm1
        exact ⟨b1, by rw [b2, a2, List.append_assoc]⟩

/-- C18: `pd_generate` is a list homomorphism over the moves. When the moves
`ms1` are generated without abort, the instructions emitted for `ms1 ++ ms2`
are those emitted for `ms1` followed by those emitted for `ms2` on its own,
and the run stops the VM exactly as `ms2` on its own does. The empty list
emits nothing, and a list generated without abort emits, move by move in list
order, what each move emits on its own. -/
theorem pd_generate_homomorphism (P : Platform) (ms1 ms2 : List Move)
    (masm masm1 : MacroAssembler) (tmp : VMReg) (in_stk_bias out_stk_bias : Int)
    (h1 : ArgumentShuffle.pd_generate P ⟨ms1⟩ masm tmp in_stk_bias out_stk_bias = .ok masm1) :
    (ArgumentShuffle.pd_generate P ⟨ms1 ++ ms2⟩ masm tmp in_stk_bias out_stk_bias).emitted masm
      = (Outcome.ok masm1).emitted masm ++
        (ArgumentShuffle.pd_generate P ⟨ms2⟩ .empty tmp in_stk_bias out_stk_bias).emitted
          .empty ∧
    (ArgumentShuffle.pd_generate P ⟨ms1 ++ ms2⟩ masm tmp in_stk_bias out_stk_bias).fault
      = (ArgumentShuffle.pd_generate P ⟨ms2⟩ .empty tmp in_stk_bias out_stk_bias).fault ∧
    ArgumentShuffle.pd_generate P ⟨[]⟩ masm tmp in_stk_bias out_stk_bias = .ok masm ∧
    masm1.code = masm.code ++ ms1.flatMap (fun m =>
      (ArgumentShuffle.pd_generate P ⟨[m]⟩ .empty tmp in_stk_bias out_stk_bias).emitted
        .empty) := by
  simp only [ArgumentShuffle.pd_generate] at h1 ⊢
  obtain ⟨f1, n1, k1⟩ := (independent_iff _).1 (pd_generate_loop_independent P ms1)
  obtain ⟨f2, n2, k2⟩ := (independent_iff _).1 (pd_generate_loop_independent P ms2)
  have c1 : masm1.code = masm.code ++ n1 := by
    have := (k1 masm).2
    simpa [h1, masm_ok] using this
  have c0 : MacroAssembler.empty.code = [] := rfl
  refine ⟨?_, ?_, rfl, ?_⟩
  · rw [pd_generate_loop_append, h1]
    simp only [Outcome.emitted, masm_ok, (k2 masm1).2, (k2 .empty).2, c1, c0,
      List.nil_append, List.length_nil, List.drop_zero, List.append_assoc, List.drop_left]
  · rw [pd_generate_loop_append, h1]
    simp only [(k2 masm1).1, (k2 .empty).1]
  · clear k1 k2 c1 ms2 f1 n1 f2 n2
    induction ms1 generalizing masm with
    | nil =>
      simp only [pd_generate_loop] at h1
      cases h1
      simp
    | cons m rest ih =>
      simp only [pd_generate_loop] at h1
      obtain ⟨f, n, k⟩ := (independent_iff _).1 (pd_generate_move_independent P m)
      cases hm : pd_generate_move P masm m with
      | aborted fault masm2 => simp [hm] at h1
      | ok masm2 =>
        rw [hm] at h1
        have hrest := ih masm2 h1
        have e1 : masm2.code = masm.code ++ n := by
          have := (k masm).2
          simpa [hm, masm_ok] using this
        have e2 : (pd_generate_loop P [m] .empty).emitted .empty = n := by
          have := (k .empty).2
          simp only [c0, List.nil_append] at this
          cases he : pd_generate_move P .empty m with
          | ok x =>
            simp only [he, masm_ok] at this
            simp [pd_generate_loop, he, Outcome.emitted, masm_ok, this, c0]
          | aborted fl x =>
            simp only [he, masm_aborted] at this
            simp [pd_generate_loop, he, Outcome.emitted, masm_aborted, this, c0]
        rw [hrest, List.flatMap_cons, e1, e2, List.append_assoc]

theorem pd_generate_homomorphism_witness :
    (ArgumentShuffle.pd_generate (riscv64 true)
        ⟨[⟨T_LONG, .set2 (Register.as_VMReg ⟨10⟩), .set2 (Register.as_VMReg ⟨11⟩)⟩] ++
          [⟨T_INT, .set1 (Register.as_VMReg ⟨12⟩), .set1 (VMReg.stack2reg (riscv64 true) 6)⟩]⟩
        .empty (Register.as_VMReg ⟨5⟩) 0 0).emitted .empty
      = (Outcome.ok ⟨[mv ⟨11⟩ ⟨10⟩], [(0, T_LONG)]⟩).emitted .empty ++
        (ArgumentShuffle.pd_generate (riscv64 true)
          ⟨[⟨T_INT, .set1 (Register.as_VMReg ⟨12⟩),
              .set1 (VMReg.stack2reg (riscv64 true) 6)⟩]⟩
          .empty (Register.as_VMReg ⟨5⟩) 0 0).emitted .empty :=
  (pd_generate_homomorphism (riscv64 true)
    [⟨T_LONG, .set2 (Register.as_VMReg ⟨10⟩), .set2 (Register.as_VMReg ⟨11⟩)⟩]
    [⟨T_INT, .set1 (Register.as_VMReg ⟨12⟩), .set1 (VMReg.stack2reg (riscv64 true) 6)⟩]
    .empty ⟨[mv ⟨11⟩ ⟨10⟩], [(0, T_LONG)]⟩ (Register.as_VMReg ⟨5⟩) 0 0 (by decide)).1

/-! ## The scratch register -/

/-- C19: what `pd_generate` emits does not depend on `tmp`: with any two
values of it the outcome is the same. Every stack-to-stack move of a supported
type goes through the fixed scratch register `t0`: a load into `t0` from the
source slot and a store of `t0` to the destination slot (`ld` and `sd`, or
`lwu` and `sw` for a float). -/
theorem pd_generate_ignores_tmp (P : Platform) (ms : List Move) (masm : MacroAssembler)
    (tmp1 tmp2 : VMReg) (in_stk_bias out_stk_bias : Int) (bt : BasicType)
    (src dst : VMRegPair) :
    ArgumentShuffle.pd_generate P ⟨ms⟩ masm tmp1 in_stk_bias out_stk_bias
      = ArgumentShuffle.pd_generate P ⟨ms⟩ masm tmp2 in_stk_bias out_stk_bias ∧
    (bt.is_supported = true → src.first.is_stack P = true → dst.first.is_stack P = true →
      ∃ load store,
        ArgumentShuffle.pd_generate P ⟨[⟨bt, src, dst⟩]⟩ masm tmp1 in_stk_bias out_stk_bias
          = .ok (((masm.block_comment bt).emit load).emit store) ∧
        ((load = ld P.t0 ⟨P.fp, reg2offset_in P src.first⟩ ∧
            store = sd P.t0 ⟨P.sp, reg2offset_out P dst.first⟩) ∨
          (load = lwu P.t0 ⟨P.fp, reg2offset_in P src.first⟩ ∧
            store = sw P.t0 ⟨P.sp, reg2offset_out P dst.first⟩))) := by
  refine ⟨rfl, fun hbt hs hd => ?_⟩
  have hf := is_stack_not_FloatRegister P _ hd
  rw [pd_generate_single]
  cases bt <;> simp only [BasicType.is_supported, Bool.false_eq_true] at hbt
  case T_FLOAT =>
    exact ⟨_, _, by simp only [pd_generate_move, move_float_to_integer_or_stack, hs, hd, hf,
      Bool.not_false, if_true], Or.inr ⟨rfl, rfl⟩⟩
  case T_DOUBLE =>
    exact ⟨_, _, by simp only [pd_generate_move, move_double_to_integer_or_stack, hs, hd, hf,
      Bool.not_false, if_true], Or.inl ⟨rfl, rfl⟩⟩
  case T_LONG =>
    exact ⟨_, _, by simp only [pd_generate_move, long_move, hs, hd, if_true],
      Or.inl ⟨rfl, rfl⟩⟩
  all_goals
    exact ⟨_, _, by simp only [pd_generate_move, move32_64, hs, hd, if_true],
      Or.inl ⟨rfl, rfl⟩⟩

theorem pd_generate_ignores_tmp_witness :
    ∃ load store,
      ArgumentShuffle.pd_generate (riscv64 true)
          ⟨[⟨T_FLOAT, .set1 (VMReg.stack2reg (riscv64 true) 4),
              .set1 (VMReg.stack2reg (riscv64 true) 6)⟩]⟩
          .empty (Register.as_VMReg ⟨7⟩) 0 0
        = .ok (((MacroAssembler.empty.block_comment T_FLOAT).emit load).emit store) ∧
      ((load = ld (riscv64 true).t0 ⟨(riscv64 true).fp,
            reg2offset_in (riscv64 true)
              (VMRegPair.set1 (VMReg.stack2reg (riscv64 true) 4)).first⟩ ∧
          store = sd (riscv64 true).t0 ⟨(riscv64 true).sp,
            reg2offset_out (riscv64 true)
              (VMRegPair.set1 (VMReg.stack2reg (riscv64 true) 6)).first⟩) ∨
        (load = lwu (riscv64 true).t0 ⟨(riscv64 true).fp,
            reg2offset_in (riscv64 true)
              (VMRegPair.set1 (VMReg.stack2reg (riscv64 true) 4)).first⟩ ∧
          store = sw (riscv64 true).t0 ⟨(riscv64 true).sp,
            reg2offset_out (riscv64 true)
              (VMRegPair.set1 (VMReg.stack2reg (riscv64 true) 6)).first⟩)) :=
  (pd_generate_ignores_tmp (riscv64 true) [] .empty (Register.as_VMReg ⟨7⟩)
    (Register.as_VMReg ⟨28⟩) 0 0 T_FLOAT (.set1 (VMReg.stack2reg (riscv64 true) 4))
    (.set1 (VMReg.stack2reg (riscv64 true) 6))).2 (by decide) (by decide) (by decide)

/-! ## The frame of one move -/

theorem store_mem_zero (s : Machine) (a v : Nat) : (s.store a v 0).mem = s.mem := rfl

end ForeignGlobalsRiscv
